import Mathlib

/-!
Verification of the India cancer/cuisine data pipeline.

This file is a shallow embedding, in Lean 4, of the core pipeline of the
repository: region-name normalization, the diet and sweetness text
classifiers, the per-region cuisine aggregator, the cancer-incidence
accumulator with its population check, the CAGR calculator, the
region join, the scatter regression, and the correlation-discovery
search of the compare view.

Modelling conventions:
- JavaScript strings are Lean `String`s; the JS string operations used by
  the pipeline (`includes`, `toLowerCase`, `trim`) are re-implemented over
  `String.data` so that they reduce in the kernel.
- `localeCompare`-based sorts are modelled as stable insertion sort by
  code-point lexicographic order (for the ASCII region names produced by
  the pipeline, default-locale `localeCompare` agrees with code-point
  order), matching the stable sort mandated for `Array.prototype.sort`.
- JS numbers are modelled as ideal values: exact rationals (`ℚ`) for the
  counting/averaging pipeline, and `JSNum` (an exact real plus the three
  special values `+∞`, `-∞`, `NaN`, with the two signed zeros collapsed to
  `0`) where the code's finiteness and special-value behaviour matters
  (`cagr`, the scatter regression's finiteness filter). Floating-point
  rounding and overflow are outside the model.
- CSV parsing (`csvParse`, `toNum`) is abstracted at its output: rows
  carry the already parsed `Option` values that `toNum` produced.
- JS objects and `Map`s keyed by strings are modelled as association
  lists in insertion order, with the JS update-in-place/append-new
  semantics.
-/

/-! ### JS string primitives -/

/-- `charsStartsWith needle hay` is true when `needle` is a prefix of `hay`. -/
def charsStartsWith : List Char → List Char → Bool
  | [], _ => true
  | _ :: _, [] => false
  | c :: cs, d :: ds => c == d && charsStartsWith cs ds

/-- `charsContains needle hay` is true when `needle` occurs contiguously in `hay`. -/
def charsContains (needle : List Char) : List Char → Bool
  | [] => charsStartsWith needle []
  | d :: ds => charsStartsWith needle (d :: ds) || charsContains needle ds

/-- JS `s.includes(sub)`. -/
def jsIncludes (s sub : String) : Bool := charsContains sub.data s.data

/-- JS `s.toLowerCase()` (ASCII case mapping, which covers every string the
pipeline lowercases). -/
def jsToLower (s : String) : String := ⟨s.data.map Char.toLower⟩

/-- JS whitespace characters relevant to `String.prototype.trim` on this
pipeline's inputs. -/
def isJsSpace (c : Char) : Bool := c = ' ' || c = '\t' || c = '\n' || c = '\r'

/-- JS `s.trim()`. -/
def jsTrim (s : String) : String :=
  ⟨((s.data.dropWhile isJsSpace).reverse.dropWhile isJsSpace).reverse⟩

/-- Code-point lexicographic order on character lists; the model of the
comparator `(a, b) => a.localeCompare(b)` used by the pipeline's sorts. -/
def lexLe : List Char → List Char → Bool
  | [], _ => true
  | _ :: _, [] => false
  | c :: cs, d :: ds => if c = d then lexLe cs ds else decide (c < d)

/-- Lexicographic order on strings, as a proposition. -/
def strLe (a b : String) : Prop := lexLe a.data b.data = true

instance : DecidableRel strLe := fun a b => by unfold strLe; infer_instance

/-- First-occurrence deduplication, the model of JS `Array.from(new Set(xs))`. -/
def firstDedupAux (seen : List String) : List String → List String
  | [] => []
  | t :: ts => if t ∈ seen then firstDedupAux seen ts else t :: firstDedupAux (t :: seen) ts

/-- JS `Array.from(new Set(xs))`: keeps the first occurrence of each element,
in encounter order. -/
def firstDedup (l : List String) : List String := firstDedupAux [] l

/-! ### Region name normalizer (part_000 lines 88-121) -/

/-- The fixed alias table `normMap`: many-to-one map from historical or
alternate spellings to canonical region names. -/
def normMap : List (String × String) := [
  ("NCT of Delhi", "Delhi"),
  ("National Capital Territory of Delhi", "Delhi"),
  ("Delhi (NCT)", "Delhi"),
  ("Uttaranchal", "Uttarakhand"),
  ("Uttar Pradesh", "Uttar Pradesh"),
  ("Jammu & Kashmir", "Jammu and Kashmir"),
  ("Jammu and Kashmir", "Jammu and Kashmir"),
  ("Dadra and Nagar Haveli and Daman and Diu", "Dadra and Nagar Haveli and Daman and Diu"),
  ("Dadra and Nagar Haveli", "Dadra and Nagar Haveli and Daman and Diu"),
  ("Daman", "Dadra and Nagar Haveli and Daman and Diu"),
  ("Daman and Diu", "Dadra and Nagar Haveli and Daman and Diu"),
  ("Andaman & Nicobar Islands", "Andaman and Nicobar Islands"),
  ("Andaman and Nicobar Islands", "Andaman and Nicobar Islands"),
  ("Pondicherry", "Puducherry"),
  ("Puducherry", "Puducherry"),
  ("Orissa", "Odisha"),
  ("Karnataka", "Karnataka"),
  ("Tamilnadu", "Tamil Nadu"),
  ("Telangana", "Telangana"),
  ("Chattisgarh", "Chhattisgarh"),
  ("Chhatisgarh", "Chhattisgarh"),
  ("Lakshadweep Islands", "Lakshadweep"),
  ("Lakshadweep", "Lakshadweep"),
  ("Arunachal", "Arunachal Pradesh"),
  ("Maharastra", "Maharashtra"),
  ("Madhya Pradesh", "Madhya Pradesh"),
  ("Ladakh", "Ladakh")]

/-- Association-list lookup, the model of a JS object/`Map` string lookup. -/
def lookupStr (m : List (String × α)) (k : String) : Option α :=
  (m.find? (fun p => p.1 == k)).map (·.2)

/-- `norm` (part_000 line 118; named `normRegion` here because Mathlib
already uses `norm`): trim, look the trimmed string up in the alias table,
fall back to the trimmed string; the trailing `|| trimmed` of the source
re-selects the trimmed input when the mapped value is falsy (empty). -/
def normRegion (s : String) : String :=
  let trimmed := jsTrim s
  let mapped := (lookupStr normMap trimmed).getD trimmed
  if mapped = "" then trimmed else mapped

/-! ### Text classifiers (part_000 lines 125-287) -/

/-- Diet categories produced by the classifier; the source's `null` outcome
("unknown") is `Option.none` around this type. -/
inductive Diet where
  | vegetarian
  | nonVegetarian
deriving DecidableEq, Repr

/-- `classifyDiet` (part_000 lines 234-241). The argument is `none` for a JS
`null`/`undefined` diet field; the source's falsy test also catches the
empty string. -/
def classifyDiet (rawDiet : Option String) : Option Diet :=
  match rawDiet with
  | none => none
  | some s =>
    if s = "" then none
    else
      let diet := jsToLower s
      if jsIncludes diet "non" then some .nonVegetarian
      else if jsIncludes diet "egg" then some .nonVegetarian
      else if jsIncludes diet "veg" then some .vegetarian
      else none

/-- `SWEET_NAME_KEYWORDS` (part_000 lines 125-150). -/
def SWEET_NAME_KEYWORDS : List String := [
  "sweet", "halwa", "laddu", "ladoo", "barfi", "burfi", "kheer", "payasam",
  "peda", "rasgulla", "rasmalai", "kesari", "jalebi", "sheera", "poli",
  "mithai", "malpua", "gulab jamun", "sandesh", "shrikhand", "ghewar",
  "modak", "kulfi", "puran poli"]

/-- `SWEET_INGREDIENT_KEYWORDS` (part_000 lines 152-166). -/
def SWEET_INGREDIENT_KEYWORDS : List String := [
  "sugar", "jaggery", "honey", "condensed milk", "khoya", "mawa", "rabdi",
  "gud", "treacle", "molasses", "palm jaggery", "dates", "khoa"]

/-- `detectSweetness` (part_000 lines 243-261). `course` is `none` for a JS
`undefined` course field. -/
def detectSweetness (name : String) (course : Option String) (tokens : List String)
    (rawIngredients : String) : Bool :=
  let courseLower := match course with | some c => jsToLower c | none => ""
  if jsIncludes courseLower "dessert" || jsIncludes courseLower "sweet" then true
  else
    let lowerName := jsToLower name
    if SWEET_NAME_KEYWORDS.any (fun kw => jsIncludes lowerName kw) then true
    else
      let rawLower := jsToLower rawIngredients
      if SWEET_INGREDIENT_KEYWORDS.any (fun kw => jsIncludes rawLower kw) then true
      else if tokens.any (fun token =>
          SWEET_INGREDIENT_KEYWORDS.any (fun kw =>
            if jsIncludes kw " " then false else jsIncludes token kw)) then true
      else false

/-- `LENTIL_TERMS` (part_000 line 278). -/
def LENTIL_TERMS : List String :=
  ["lentil", "dal", "toor", "masoor", "moong", "chana", "chickpea", "arhar", "urad"]

/-- `RED_MEAT_TERMS` (part_000 line 279). -/
def RED_MEAT_TERMS : List String := ["mutton", "lamb", "pork", "beef", "yak"]

/-- `POULTRY_TERMS` (part_000 line 280). -/
def POULTRY_TERMS : List String := ["chicken", "duck"]

/-- `FISH_TERMS` (part_000 line 281). -/
def FISH_TERMS : List String :=
  ["fish", "prawn", "prawns", "shrimp", "tuna", "pomfret", "crab", "seafood"]

/-- `TURMERIC_TERMS` (part_000 line 282). -/
def TURMERIC_TERMS : List String := ["turmeric", "haldi"]

/-- `NON_VEG_TERMS` (part_000 line 283). -/
def NON_VEG_TERMS : List String := [
  "chicken", "mutton", "lamb", "pork", "beef", "fish", "prawn", "prawns",
  "shrimp", "egg", "eggs", "crab", "tuna", "clam"]

/-- `anyMention` (part_000 lines 285-287). -/
def anyMention (tokens terms : List String) : Bool :=
  tokens.any fun token => terms.any fun term => jsIncludes token term

/-! ### Per-region cuisine aggregator (part_000 lines 352-488) -/

/-- The classified observation passed to `addObservation` (part_000 lines
374-380): diet tag, sweetness flag, optional prep/cook minutes, ingredient
tokens. -/
structure Details where
  diet : Option Diet
  sweet : Bool
  prep : Option ℚ
  cook : Option ℚ
  tokens : List String
deriving DecidableEq

/-- One mutable accumulator bucket of `cuisineAcc` (part_000 lines 352-370).
`ingredient_stats` is the JS `Map` in insertion order. -/
structure Bucket where
  state : String
  dish_count : ℕ
  veg : ℕ
  sweet : ℕ
  prep_sum : ℚ
  prep_n : ℕ
  cook_sum : ℚ
  cook_n : ℕ
  lentil_like : ℕ
  red_meat_like : ℕ
  poultry : ℕ
  fish : ℕ
  turmeric : ℕ
  ingredient_stats : List (String × ℕ)
deriving DecidableEq

/-- The freshly created bucket (part_000 lines 384-399). -/
def freshBucket (state : String) : Bucket :=
  { state := state, dish_count := 0, veg := 0, sweet := 0, prep_sum := 0,
    prep_n := 0, cook_sum := 0, cook_n := 0, lentil_like := 0,
    red_meat_like := 0, poultry := 0, fish := 0, turmeric := 0,
    ingredient_stats := [] }

/-- `bucket.ingredient_stats.set(token, (prev ?? 0) + 1)` (part_000 lines
422-425): update in place, append a new key at the end. -/
def bumpStat : List (String × ℕ) → String → List (String × ℕ)
  | [], tok => [(tok, 1)]
  | (k, v) :: rest, tok =>
      if k = tok then (k, v + 1) :: rest else (k, v) :: bumpStat rest tok

/-- The body of `addObservation` acting on the bucket for the observation's
region (part_000 lines 400-426). -/
def applyObs (d : Details) (b0 : Bucket) : Bucket :=
  let b1 := { b0 with dish_count := b0.dish_count + 1 }
  let hasAnimalProtein := d.tokens.any fun token =>
    NON_VEG_TERMS.any fun term => jsIncludes token term
  let isVegetarian := d.diet == some .vegetarian && !hasAnimalProtein
  let b2 := if isVegetarian then { b1 with veg := b1.veg + 1 } else b1
  let b3 := if d.sweet then { b2 with sweet := b2.sweet + 1 } else b2
  let b4 := match d.prep with
    | some p => { b3 with prep_sum := b3.prep_sum + p, prep_n := b3.prep_n + 1 }
    | none => b3
  let b5 := match d.cook with
    | some c => { b4 with cook_sum := b4.cook_sum + c, cook_n := b4.cook_n + 1 }
    | none => b4
  if d.tokens.isEmpty then b5
  else
    let uniqueTokens := firstDedup d.tokens
    let b6 := if anyMention uniqueTokens LENTIL_TERMS then
      { b5 with lentil_like := b5.lentil_like + 1 } else b5
    let b7 := if anyMention uniqueTokens RED_MEAT_TERMS then
      { b6 with red_meat_like := b6.red_meat_like + 1 } else b6
    let b8 := if anyMention uniqueTokens POULTRY_TERMS then
      { b7 with poultry := b7.poultry + 1 } else b7
    let b9 := if anyMention uniqueTokens FISH_TERMS then
      { b8 with fish := b8.fish + 1 } else b8
    let b10 := if anyMention uniqueTokens TURMERIC_TERMS then
      { b9 with turmeric := b9.turmeric + 1 } else b9
    { b10 with ingredient_stats := uniqueTokens.foldl bumpStat b10.ingredient_stats }

/-- Find-or-create on the insertion-ordered accumulator map `cuisineAcc`
(part_000 line 384): update the existing bucket in place, or append a fresh
one. -/
def insertObs (state : String) (d : Details) : List Bucket → List Bucket
  | [] => [applyObs d (freshBucket state)]
  | b :: bs =>
      if b.state = state then applyObs d b :: bs else b :: insertObs state d bs

/-- `addObservation` (part_000 lines 372-427): normalize the region, drop the
observation when the normalized region is empty (falsy) or the sentinel
`"-1"`, then fold into that region's bucket. -/
def addObservation (stateRaw : String) (d : Details) (acc : List Bucket) : List Bucket :=
  let state := normRegion stateRaw
  if state = "" ∨ state = "-1" then acc else insertObs state d acc

/-- Feeding a whole observation stream to the aggregator, in order. -/
def aggregate (obss : List (String × Details)) : List Bucket :=
  obss.foldl (fun acc o => addObservation o.1 o.2 acc) []

/-- One finalized output row of `cuisine_by_state.json` (part_000 lines
468-488). -/
structure CuisineRow where
  state : String
  dish_count : ℕ
  pct_veg : Option ℚ
  pct_sweet : Option ℚ
  avg_prep_time : Option ℚ
  avg_cook_time : Option ℚ
  pct_lentil_like : Option ℚ
  pct_red_meat_like : Option ℚ
  pct_poultry : Option ℚ
  pct_fish : Option ℚ
  pct_turmeric : Option ℚ
  ingredient_stats : List (String × ℕ)
deriving DecidableEq

/-- The comparator `(a, b) => (b[1] - a[1]) || a[0].localeCompare(b[0])`
(part_000 line 471): descending count, ties by ascending key. -/
def ingStatLe (a b : String × ℕ) : Prop :=
  b.2 < a.2 ∨ (b.2 = a.2 ∧ strLe a.1 b.1)

instance : DecidableRel ingStatLe := fun a b => by unfold ingStatLe; infer_instance

/-- The comparator `(a, b) => a.state.localeCompare(b.state)` on cuisine rows
(part_000 line 488). -/
def cuisineRowLe (a b : CuisineRow) : Prop := strLe a.state b.state

instance : DecidableRel cuisineRowLe := fun a b => by unfold cuisineRowLe; infer_instance

/-- Finalizing one bucket into its output row (part_000 lines 469-487):
percentages and averages are `none` exactly on a zero denominator (the JS
truthiness ternaries), and the ingredient map is sorted by descending count
then ascending key. -/
def finalizeBucket (b : Bucket) : CuisineRow :=
  { state := b.state,
    dish_count := b.dish_count,
    pct_veg := if b.dish_count = 0 then none else some ((b.veg : ℚ) / b.dish_count),
    pct_sweet := if b.dish_count = 0 then none else some ((b.sweet : ℚ) / b.dish_count),
    avg_prep_time := if b.prep_n = 0 then none else some (b.prep_sum / b.prep_n),
    avg_cook_time := if b.cook_n = 0 then none else some (b.cook_sum / b.cook_n),
    pct_lentil_like := if b.dish_count = 0 then none else some ((b.lentil_like : ℚ) / b.dish_count),
    pct_red_meat_like := if b.dish_count = 0 then none else some ((b.red_meat_like : ℚ) / b.dish_count),
    pct_poultry := if b.dish_count = 0 then none else some ((b.poultry : ℚ) / b.dish_count),
    pct_fish := if b.dish_count = 0 then none else some ((b.fish : ℚ) / b.dish_count),
    pct_turmeric := if b.dish_count = 0 then none else some ((b.turmeric : ℚ) / b.dish_count),
    ingredient_stats := List.insertionSort ingStatLe b.ingredient_stats }

/-- `cuisineRows` (part_000 lines 468-488): finalize every bucket, then sort
the rows by state. -/
def cuisineRows (acc : List Bucket) : List CuisineRow :=
  List.insertionSort cuisineRowLe (acc.map finalizeBucket)

/-- The aggregator's bucket invariant: a bucket exists only after at least
one observation was added, and each per-category counter is incremented at
most once per observation while the dish count is incremented once per
observation. -/
def BucketInv (b : Bucket) : Prop :=
  1 ≤ b.dish_count ∧ b.veg ≤ b.dish_count ∧ b.sweet ≤ b.dish_count ∧
  b.lentil_like ≤ b.dish_count ∧ b.red_meat_like ≤ b.dish_count ∧
  b.poultry ≤ b.dish_count ∧ b.fish ≤ b.dish_count ∧ b.turmeric ≤ b.dish_count

/-! ### JS numbers with special values -/

/-- A JS number as an ideal value: an exact real, `+∞`, `-∞`, or `NaN`.
The two signed zeros are collapsed to `fin 0` (they are `==`-equal in JS and
the pipeline never distinguishes them); floating-point rounding and overflow
are outside the model. -/
inductive JSNum where
  | fin (v : ℝ)
  | posInf
  | negInf
  | nan

/-- JS `isFinite`. -/
def JSNum.isFinite : JSNum → Bool
  | .fin _ => true
  | _ => false

/-- The JS comparison `x <= 0`; `NaN` compares false to everything. -/
noncomputable def JSNum.leZero : JSNum → Bool
  | .fin v => decide (v ≤ 0)
  | .posInf => false
  | .negInf => true
  | .nan => false

/-- JS division (IEEE semantics on the ideal model; the sign of a zero
divisor is taken as `+0` since signed zeros are collapsed). -/
noncomputable def jsDiv : JSNum → JSNum → JSNum
  | .nan, _ => .nan
  | _, .nan => .nan
  | .posInf, .posInf => .nan
  | .posInf, .negInf => .nan
  | .negInf, .posInf => .nan
  | .negInf, .negInf => .nan
  | .posInf, .fin b => if b < 0 then .negInf else .posInf
  | .negInf, .fin b => if b < 0 then .posInf else .negInf
  | .fin _, .posInf => .fin 0
  | .fin _, .negInf => .fin 0
  | .fin a, .fin b =>
      if b = 0 then (if a = 0 then .nan else if a < 0 then .negInf else .posInf)
      else .fin (a / b)

/-- JS subtraction. -/
noncomputable def jsSub : JSNum → JSNum → JSNum
  | .nan, _ => .nan
  | _, .nan => .nan
  | .posInf, .posInf => .nan
  | .posInf, _ => .posInf
  | .negInf, .negInf => .nan
  | .negInf, _ => .negInf
  | .fin _, .posInf => .negInf
  | .fin _, .negInf => .posInf
  | .fin a, .fin b => .fin (a - b)

/-- The exponent is an integer (the case in which JS exponentiation of a
negative base is defined). -/
def isIntegral (e : ℝ) : Prop := ∃ k : ℤ, (k : ℝ) = e

/-- The exponent is an odd integer (the case in which JS exponentiation out
of `-∞` keeps the negative sign). -/
def isOddIntegral (e : ℝ) : Prop := ∃ k : ℤ, (k : ℝ) = e ∧ Odd k

section
open scoped Classical

/-- JS `Math.pow` following `Number::exponentiate` of the ECMAScript
specification on the ideal model: `NaN` exponent gives `NaN`; zero exponent
gives `1` for every base; a negative finite base with a non-integer finite
exponent gives `NaN`; otherwise the exact real power (signed zeros
collapsed, no overflow). -/
noncomputable def jsPow (b e : JSNum) : JSNum :=
  match e with
  | .nan => .nan
  | .fin ev =>
      if ev = 0 then .fin 1
      else
        match b with
        | .nan => .nan
        | .posInf => if 0 < ev then .posInf else .fin 0
        | .negInf =>
            if 0 < ev then (if isOddIntegral ev then .negInf else .posInf)
            else .fin 0
        | .fin bv =>
            if bv = 0 then (if 0 < ev then .fin 0 else .posInf)
            else if 0 < bv then .fin (bv ^ ev)
            else if h : isIntegral ev then .fin (bv ^ h.choose) else .nan
  | .posInf =>
      match b with
      | .nan => .nan
      | .posInf => .posInf
      | .negInf => .posInf
      | .fin bv =>
          if 1 < |bv| then .posInf
          else if |bv| = 1 then .nan
          else .fin 0
  | .negInf =>
      match b with
      | .nan => .nan
      | .posInf => .fin 0
      | .negInf => .fin 0
      | .fin bv =>
          if 1 < |bv| then .fin 0
          else if |bv| = 1 then .nan
          else .posInf

end

/-! ### Growth calculator (part_000 lines 263-266) -/

/-- `cagr` (part_000 lines 263-266): null unless `v0` and `v1` are finite,
`v0 > 0` and `years > 0` under JS comparison; otherwise
`Math.pow(v1 / v0, 1 / years) - 1`. Note that the source never tests
`isFinite(years)`. -/
noncomputable def cagr (v0 v1 years : JSNum) : Option JSNum :=
  if !v0.isFinite || !v1.isFinite || v0.leZero || years.leZero then none
  else some (jsSub (jsPow (jsDiv v1 v0) (jsDiv (.fin 1) years)) (.fin 1))

/-! ### Cancer-incidence accumulator (part_000 lines 48-86 and 295-350) -/

/-- `STATE_POPULATION_2021` (part_000 lines 48-86). -/
def STATE_POPULATION_2021 : List (String × ℕ) := [
  ("Andaman and Nicobar Islands", 419978),
  ("Andhra Pradesh", 53903393),
  ("Arunachal Pradesh", 1570458),
  ("Assam", 35607039),
  ("Bihar", 127403751),
  ("Chandigarh", 1184743),
  ("Chhattisgarh", 29436231),
  ("Dadra and Nagar Haveli and Daman and Diu", 867846),
  ("Delhi", 19814000),
  ("Goa", 1586250),
  ("Gujarat", 63872399),
  ("Haryana", 28902198),
  ("Himachal Pradesh", 7304787),
  ("Jharkhand", 38471306),
  ("Karnataka", 67562686),
  ("Kerala", 35699443),
  ("Madhya Pradesh", 85358965),
  ("Maharashtra", 124904071),
  ("Manipur", 3117011),
  ("Meghalaya", 3366710),
  ("Mizoram", 1261231),
  ("Nagaland", 2249695),
  ("Odisha", 46356334),
  ("Puducherry", 1504000),
  ("Punjab", 30141373),
  ("Rajasthan", 81032689),
  ("Sikkim", 690251),
  ("Tamil Nadu", 77841267),
  ("Telangana", 37173107),
  ("Tripura", 4169794),
  ("Uttar Pradesh", 237882725),
  ("Uttarakhand", 11250858),
  ("West Bengal", 100043676),
  ("Jammu and Kashmir", 13635010),
  ("Ladakh", 297419),
  ("Lakshadweep", 73199),
  ("Andaman & Nicobar Islands", 419978)]

/-- One parsed row of `cancer_incidence_india.csv`: the raw `State/UT` cell
and the four yearly cells after `toNum` (`none` for a missing or unparseable
cell). -/
structure CancerRowIn where
  stateUT : String
  y2019 : Option ℚ
  y2020 : Option ℚ
  y2021 : Option ℚ
  y2022 : Option ℚ
deriving DecidableEq

/-- One accumulator bucket of `cancerByState` before the derived-metric pass
(part_000 lines 314-321). -/
structure CancerBucket where
  state : String
  population : Option ℕ
  incidence_2019 : Option ℚ
  incidence_2020 : Option ℚ
  incidence_2021 : Option ℚ
  incidence_2022 : Option ℚ
deriving DecidableEq

/-- The per-year update of part_000 lines 322-329: a present value is added
with `bucket.incidence_YYYY += v`, a missing value sets the field to null.
Because the accumulator field can already be null, the JS `+=` coerces that
null to `0` — `some ((old ?? 0) + v)`. -/
def bumpYear (old : Option ℚ) (v : Option ℚ) : Option ℚ :=
  match v with
  | some n => some (old.getD 0 + n)
  | none => none

/-- The freshly created bucket (part_000 lines 314-321): population from the
table under the normalized then the raw spelling, yearly totals zero. -/
def freshCancerBucket (state rawState : String) : CancerBucket :=
  { state := state,
    population := match lookupStr STATE_POPULATION_2021 state with
      | some p => some p
      | none => lookupStr STATE_POPULATION_2021 rawState,
    incidence_2019 := some 0, incidence_2020 := some 0,
    incidence_2021 := some 0, incidence_2022 := some 0 }

/-- Folding one CSV row into a bucket (part_000 lines 322-329). -/
def applyCancerRow (r : CancerRowIn) (b : CancerBucket) : CancerBucket :=
  { b with
    incidence_2019 := bumpYear b.incidence_2019 r.y2019,
    incidence_2020 := bumpYear b.incidence_2020 r.y2020,
    incidence_2021 := bumpYear b.incidence_2021 r.y2021,
    incidence_2022 := bumpYear b.incidence_2022 r.y2022 }

/-- Find-or-create on the insertion-ordered `cancerByState` map. -/
def insertCancerRow (state rawState : String) (r : CancerRowIn) :
    List CancerBucket → List CancerBucket
  | [] => [applyCancerRow r (freshCancerBucket state rawState)]
  | b :: bs =>
      if b.state = state then applyCancerRow r b :: bs
      else b :: insertCancerRow state rawState r bs

/-- One iteration of the CSV loop (part_000 lines 306-330): trim the raw
state, skip the row when it is empty, normalize, fold into the bucket. -/
def addCancerRow (acc : List CancerBucket) (r : CancerRowIn) : List CancerBucket :=
  let rawState := jsTrim r.stateUT
  if rawState = "" then acc
  else insertCancerRow (normRegion rawState) rawState r acc

/-- The whole accumulation loop over the incidence CSV (part_000 lines
306-330). -/
def cancerAgg (rows : List CancerRowIn) : List CancerBucket :=
  rows.foldl addCancerRow []

/-- One enriched row of `cancer_by_state.json` (part_000 lines 331-344). -/
structure CancerOut where
  state : String
  population : Option ℕ
  incidence_2019 : Option ℚ
  incidence_2020 : Option ℚ
  incidence_2021 : Option ℚ
  incidence_2022 : Option ℚ
  incidence_cagr_19_22 : Option JSNum
  incidence_per_100k_2019 : Option ℝ
  incidence_per_100k_2020 : Option ℝ
  incidence_per_100k_2021 : Option ℝ
  incidence_per_100k_2022 : Option ℝ

/-- The per-capita rate of part_000 lines 338-343:
`incidenceValue != null && population ? incidence / population * 100_000 :
null` — the truthiness test makes a missing or zero population give null. -/
noncomputable def perCapitaRate (v : Option ℚ) (pop : Option ℕ) : Option ℝ :=
  match v, pop with
  | some n, some p => if p = 0 then none else some ((n : ℝ) / (p : ℝ) * 100000)
  | _, _ => none

/-- The derived-metric pass over one bucket (part_000 lines 331-344). -/
noncomputable def enrichBucket (b : CancerBucket) : CancerOut :=
  { state := b.state,
    population := b.population,
    incidence_2019 := b.incidence_2019,
    incidence_2020 := b.incidence_2020,
    incidence_2021 := b.incidence_2021,
    incidence_2022 := b.incidence_2022,
    incidence_cagr_19_22 := match b.incidence_2019, b.incidence_2022 with
      | some a, some c => cagr (.fin (a : ℝ)) (.fin (c : ℝ)) (.fin 3)
      | _, _ => none,
    incidence_per_100k_2019 := perCapitaRate b.incidence_2019 b.population,
    incidence_per_100k_2020 := perCapitaRate b.incidence_2020 b.population,
    incidence_per_100k_2021 := perCapitaRate b.incidence_2021 b.population,
    incidence_per_100k_2022 := perCapitaRate b.incidence_2022 b.population }

/-- The comparator `(a, b) => a.state.localeCompare(b.state)` on cancer rows
(part_000 line 345). -/
def cancerOutLe (a b : CancerOut) : Prop := strLe a.state b.state

noncomputable instance : DecidableRel cancerOutLe := fun a b => by
  unfold cancerOutLe; infer_instance

/-- `cancerRows` (part_000 line 345): enrich every bucket and sort by state. -/
noncomputable def cancerRowsOf (rows : List CancerRowIn) : List CancerOut :=
  List.insertionSort cancerOutLe ((cancerAgg rows).map enrichBucket)

/-- `missingPopulation` (part_000 line 346). -/
noncomputable def missingPopulation (rows : List CancerRowIn) : List String :=
  ((cancerRowsOf rows).filter (fun r => r.population.isNone)).map (·.state)

/-- JS `missingPopulation.join(', ')`. -/
def joinComma (l : List String) : String :=
  ⟨List.intercalate (", ".data) (l.map String.data)⟩

/-- The cancer phase of `main` up to and including the fatal
missing-population check (part_000 lines 345-350). The `throw` at line 348
precedes the `writeFileSync` at line 350, so an `error` result is produced
before any output document is written; `ok` carries the rows that would be
written. -/
noncomputable def cancerPhase (rows : List CancerRowIn) : Except String (List CancerOut) :=
  let missing := missingPopulation rows
  if missing.isEmpty then .ok (cancerRowsOf rows)
  else .error ("Missing population for states: " ++ joinComma missing)

/-! ### Join and output builder (part_000 lines 492-500) -/

/-- One row of `joined_state_metrics.json`. -/
structure JoinedRow where
  state : String
  cancer : Option CancerOut
  cuisine : Option CuisineRow

/-- `joinedRows` (part_000 lines 492-500): union of the region keys of both
summary sets (a JS `Set`, first occurrence kept), sorted ascending by
`localeCompare`, each key paired with its summary from each side or null
when absent. -/
def joinRows (cancerBuckets : List CancerOut) (cuisine : List CuisineRow) :
    List JoinedRow :=
  let allStates := firstDedup (cancerBuckets.map (·.state) ++ cuisine.map (·.state))
  (List.insertionSort strLe allStates).map fun s =>
    { state := s,
      cancer := cancerBuckets.find? (fun b => b.state == s),
      cuisine := cuisine.find? (fun r => r.state == s) }

/-! ### Scatter regression (src/viz/scatter.ts lines 27-132) -/

/-- `ScatterPoint` (scatter.ts lines 3-7), with JS-number coordinates so the
finiteness filter of line 35 is expressible. -/
structure ScatterPoint where
  state : String
  x : JSNum
  y : JSNum

/-- One entry of the residual list (scatter.ts lines 119-127). -/
structure ResidualEntry where
  state : String
  actual : ℝ
  predicted : ℝ
  residual : ℝ

/-- `ScatterMetrics` (scatter.ts lines 14-19). -/
structure ScatterMetrics where
  slope : ℝ
  intercept : ℝ
  r : ℝ
  residuals : List ResidualEntry

/-- The real payload of a finite JS number (only ever applied after the
finiteness filter). -/
def JSNum.val : JSNum → ℝ
  | .fin v => v
  | _ => 0

/-- `d3.mean` over an all-finite list, as used after the finiteness filter of
scatter.ts (the `?? 0` fallback of lines 97-101 coincides with `0/0 = 0` on
the empty list). -/
noncomputable def listMean (l : List ℝ) : ℝ := l.sum / l.length

/-- The finiteness filter of scatter.ts line 35. -/
def validPoints (data : List ScatterPoint) : List ScatterPoint :=
  data.filter fun d => d.x.isFinite && d.y.isFinite

/-- The comparator `(a, b) => Math.abs(b.residual) - Math.abs(a.residual)`
(scatter.ts line 129): descending absolute residual. -/
def residualLe (a b : ResidualEntry) : Prop := |b.residual| ≤ |a.residual|

noncomputable instance : DecidableRel residualLe := fun a b => by
  unfold residualLe; infer_instance

/-- The regression fit of `renderScatter` (scatter.ts lines 35-39 and
97-131), stripped of the DOM drawing it is interleaved with: null when no
sample has both coordinates finite; otherwise population means, variances
and covariance over the finite samples, `slope = cov / varX` (0 when
`varX = 0`), `intercept = meanY - slope * meanX`,
`r = cov / sqrt(varX * varY)` (0 when either variance is 0), and the
residual list sorted by descending absolute residual. -/
noncomputable def fit (data : List ScatterPoint) : Option ScatterMetrics :=
  let valid := validPoints data
  if valid.length = 0 then none
  else
    let meanX := listMean (valid.map fun d => d.x.val)
    let meanY := listMean (valid.map fun d => d.y.val)
    let varianceX := listMean (valid.map fun d => (d.x.val - meanX) ^ 2)
    let varianceY := listMean (valid.map fun d => (d.y.val - meanY) ^ 2)
    let covariance := listMean (valid.map fun d => (d.x.val - meanX) * (d.y.val - meanY))
    let slope := if varianceX = 0 then 0 else covariance / varianceX
    let intercept := meanY - slope * meanX
    let r := if varianceX = 0 ∨ varianceY = 0 then 0
      else covariance / Real.sqrt (varianceX * varianceY)
    let residuals := valid.map fun d =>
      { state := d.state, actual := d.y.val,
        predicted := slope * d.x.val + intercept,
        residual := d.y.val - (slope * d.x.val + intercept) }
    some { slope := slope, intercept := intercept, r := r,
           residuals := List.insertionSort residualLe residuals }

/-- Population mean in the spec's words. -/
noncomputable def specMean (l : List ℝ) : ℝ := l.sum / l.length

/-- Population variance in the spec's words: divide by `n`, not `n - 1`. -/
noncomputable def specVar (l : List ℝ) : ℝ :=
  ((l.map fun v => (v - specMean l) ^ 2).sum) / l.length

/-- Population covariance of a paired-sample list in the spec's words. -/
noncomputable def specCov (ps : List (ℝ × ℝ)) : ℝ :=
  ((ps.map fun p =>
    (p.1 - specMean (ps.map Prod.fst)) * (p.2 - specMean (ps.map Prod.snd))).sum) / ps.length

/-- The paired finite samples of a scatter input, as real pairs. -/
def finitePairs (data : List ScatterPoint) : List (ℝ × ℝ) :=
  (validPoints data).map fun d => (d.x.val, d.y.val)

/-! ### Correlation discovery (part_001 lines 8-136 and 474-602) -/

/-- The cancer side of one joined record as the compare view loads it from
`joined_state_metrics.json` (every JSON number is a finite real; `NaN` and
infinities serialize to null). Field order and names follow
`CancerStateMetrics` plus the derived fields of part_000. -/
structure CancerJson where
  incidence_2019 : Option ℝ
  incidence_2020 : Option ℝ
  incidence_2021 : Option ℝ
  incidence_2022 : Option ℝ
  incidence_cagr_19_22 : Option ℝ
  incidence_per_100k_2019 : Option ℝ
  incidence_per_100k_2020 : Option ℝ
  incidence_per_100k_2021 : Option ℝ
  incidence_per_100k_2022 : Option ℝ

/-- The cuisine side of one joined record as loaded from
`cuisine_by_state.json` (`ingredient_stats`, which the correlation search
reads only through its precomputed `stateShares` closure, is omitted). -/
structure CuisineJson where
  state : String
  dish_count : ℝ
  pct_veg : Option ℝ
  pct_sweet : Option ℝ
  pct_lentil_like : Option ℝ
  pct_red_meat_like : Option ℝ
  pct_poultry : Option ℝ
  pct_fish : Option ℝ
  pct_turmeric : Option ℝ
  avg_prep_time : Option ℝ
  avg_cook_time : Option ℝ

/-- One loaded row of `joined_state_metrics.json` (`JoinedStateMetrics`). -/
structure JoinedRec where
  state : String
  cancer : Option CancerJson
  cuisine : Option CuisineJson

/-- The keys of the `cancerMetrics` option list (part_001 lines 36-109). -/
inductive CancerKey where
  | per100k2019 | per100k2020 | per100k2021 | per100k2022
  | inc2019 | inc2020 | inc2021 | inc2022
  | cagr1922
deriving DecidableEq, Repr

/-- `entry.cancer?.[cancerMetric.key]`. -/
def CancerJson.get (c : CancerJson) : CancerKey → Option ℝ
  | .per100k2019 => c.incidence_per_100k_2019
  | .per100k2020 => c.incidence_per_100k_2020
  | .per100k2021 => c.incidence_per_100k_2021
  | .per100k2022 => c.incidence_per_100k_2022
  | .inc2019 => c.incidence_2019
  | .inc2020 => c.incidence_2020
  | .inc2021 => c.incidence_2021
  | .inc2022 => c.incidence_2022
  | .cagr1922 => c.incidence_cagr_19_22

/-- `cancerMetrics` (part_001 lines 36-109), keys in source order. -/
def cancerMetricsKeys : List CancerKey :=
  [.per100k2019, .per100k2020, .per100k2021, .per100k2022,
   .inc2019, .inc2020, .inc2021, .inc2022, .cagr1922]

/-- The keys of the `cuisineMetrics` option list (part_001 lines 23-34). -/
inductive CuisineKey where
  | pctVeg | pctSweet | pctLentil | pctRedMeat | pctPoultry | pctFish
  | pctTurmeric | avgPrep | avgCook | dishCount
deriving DecidableEq, Repr

/-- `row[selection.option.key] ?? null` for a preset cuisine metric
(part_001 lines 476-479); `dish_count` is always a number. -/
def CuisineJson.get (row : CuisineJson) : CuisineKey → Option ℝ
  | .pctVeg => row.pct_veg
  | .pctSweet => row.pct_sweet
  | .pctLentil => row.pct_lentil_like
  | .pctRedMeat => row.pct_red_meat_like
  | .pctPoultry => row.pct_poultry
  | .pctFish => row.pct_fish
  | .pctTurmeric => row.pct_turmeric
  | .avgPrep => row.avg_prep_time
  | .avgCook => row.avg_cook_time
  | .dishCount => some row.dish_count

/-- `cuisineMetrics` (part_001 lines 23-34), keys in source order. -/
def cuisineMetricsKeys : List CuisineKey :=
  [.pctVeg, .pctSweet, .pctLentil, .pctRedMeat, .pctPoultry, .pctFish,
   .pctTurmeric, .avgPrep, .avgCook, .dishCount]

/-- `IngredientInfo` (part_001 lines 113-119) restricted to the fields the
correlation search reads (`name` for the share lookup, `stateCount` for the
candidate filter); the presentation-only fields are omitted. -/
structure IngredientInfo where
  name : String
  stateCount : ℕ

/-- `CuisineSelection` (part_001 lines 121-123). -/
inductive CuisineSel where
  | preset (key : CuisineKey)
  | ingredient (info : IngredientInfo)

/-- Per-state ingredient share maps, the `stateShares` closure capture of
`buildIngredientUniverse` consumed by `getCuisineValue`. -/
abbrev StateShares := List (String × List (String × ℝ))

/-- `getCuisineValue` (part_001 lines 474-484): null for an absent cuisine
row; a preset reads the row field; an ingredient selection is null when
`dish_count` is 0, `0` when the state has no share map, else the share
(defaulting to 0). -/
noncomputable def getCuisineValue (stateShares : StateShares)
    (row : Option CuisineJson) (sel : CuisineSel) : Option ℝ :=
  match row with
  | none => none
  | some r =>
    match sel with
    | .preset key => r.get key
    | .ingredient info =>
        if r.dish_count = 0 then none
        else
          match lookupStr stateShares r.state with
          | none => some 0
          | some shareMap => some ((lookupStr shareMap info.name).getD 0)

/-- The paired-sample set one candidate pair builds from the joined records
(part_001 lines 586-592): one point per joined record in which both the
cuisine and the cancer value are present. -/
noncomputable def comboPoints (joined : List JoinedRec) (shares : StateShares)
    (cx : CuisineSel) (cy : CancerKey) : List ScatterPoint :=
  joined.filterMap fun entry =>
    match getCuisineValue shares entry.cuisine cx, entry.cancer.bind (·.get cy) with
    | some xv, some yv => some { state := entry.state, x := .fin xv, y := .fin yv }
    | _, _ => none

/-- The result shape of `computeScatter`, read through `.metrics` by the
search. -/
structure ScatterComputation where
  metrics : ScatterMetrics

/-- Modelled from the spec: `computeScatter` is imported by part_001 from
`../viz/scatter` but its body is not among the provided sources; per spec
section 4.6 it is the correlation engine's `fit` — "Requires at least one
sample with finite x and y; returns null otherwise" with the same slope,
intercept, r and residuals as the scatter renderer — so it is modelled as
the regression part of `renderScatter` (`fit` above). -/
noncomputable def computeScatter (points : List ScatterPoint) : Option ScatterComputation :=
  (fit points).map fun m => { metrics := m }

/-- `ComboSuggestion` (part_001 lines 131-136). -/
structure ComboSuggestion where
  cuisine : CuisineSel
  cancer : CancerKey
  r : ℝ
  sample : ℕ

/-- The comparator `(a, b) => Math.abs(b.r) - Math.abs(a.r)` (part_001 line
600): descending absolute correlation. -/
def comboLe (a b : ComboSuggestion) : Prop := |b.r| ≤ |a.r|

noncomputable instance : DecidableRel comboLe := fun a b => by
  unfold comboLe; infer_instance

/-- The candidate x-metrics of the search (part_001 lines 578-582): the ten
preset metrics, then the ingredient pseudo-metrics restricted to ingredients
appearing in at least 6 states, capped at 60. -/
def cuisineCandidates (ingredientInfos : List IngredientInfo) : List CuisineSel :=
  let ingredientCandidates := (ingredientInfos.filter fun info => 6 ≤ info.stateCount).take 60
  cuisineMetricsKeys.map CuisineSel.preset
    ++ ingredientCandidates.map CuisineSel.ingredient

/-- The exhaustive pairwise scan of `computeInterestingCombos` before the
final sort (part_001 lines 584-598): for every candidate pair, build the
paired samples, skip the pair when fewer than 6 points survive, run
`computeScatter`, and record the fitted `r` and the sample size. The closure
captures `data.joined`, `ingredientInfos` and `stateIngredientShares` of the
source appear as parameters. -/
noncomputable def allCombos (joined : List JoinedRec)
    (ingredientInfos : List IngredientInfo) (shares : StateShares) :
    List ComboSuggestion :=
  (cuisineCandidates ingredientInfos).flatMap fun cx =>
    cancerMetricsKeys.filterMap fun cy =>
      let points := comboPoints joined shares cx cy
      if points.length < 6 then none
      else
        match computeScatter points with
        | none => none
        | some comp =>
            some { cuisine := cx, cancer := cy, r := comp.metrics.r,
                   sample := points.length }

/-- `computeInterestingCombos` (part_001 lines 576-602): the scanned combos
sorted by descending absolute r, top 18 kept. -/
noncomputable def computeInterestingCombos (joined : List JoinedRec)
    (ingredientInfos : List IngredientInfo) (shares : StateShares) :
    List ComboSuggestion :=
  (List.insertionSort comboLe (allCombos joined ingredientInfos shares)).take 18

/-! ### Order lemmas for the sort relations -/

theorem lexLe_total : ∀ a b, lexLe a b = true ∨ lexLe b a = true := by
  intro a
  induction a with
  | nil => intro b; left; rfl
  | cons c cs ih =>
    intro b
    cases b with
    | nil => right; rfl
    | cons d ds =>
      by_cases h : c = d
      · subst h
        rcases ih ds with h1 | h1
        · left; simp [lexLe, h1]
        · right; simp [lexLe, h1]
      · rcases lt_or_gt_of_ne h with hlt | hgt
        · left; simp [lexLe, h, hlt]
        · right; simp [lexLe, Ne.symm h, hgt, not_lt_of_gt hgt, le_of_lt]

theorem lexLe_trans : ∀ a b c, lexLe a b = true → lexLe b c = true → lexLe a c = true := by
  intro a
  induction a with
  | nil => intro b c _ _; rfl
  | cons x xs ih =>
    intro b c hab hbc
    cases b with
    | nil => simp [lexLe] at hab
    | cons y ys =>
      cases c with
      | nil => simp [lexLe] at hbc
      | cons z zs =>
        simp only [lexLe] at hab hbc ⊢
        by_cases hxy : x = y
        · subst hxy
          by_cases hyz : x = z
          · subst hyz
            simp only [if_pos rfl] at hab hbc ⊢
            exact ih ys zs hab hbc
          · simp only [if_pos rfl] at hab hbc
            simp_all
        · by_cases hyz : y = z
          · subst hyz
            simp_all
          · simp only [if_neg hxy] at hab
            simp only [if_neg hyz] at hbc
            by_cases hxz : x = z
            · subst hxz
              exact absurd (lt_trans (of_decide_eq_true hab) (of_decide_eq_true hbc)) (lt_irrefl x)
            · simp [if_neg hxz, lt_trans (of_decide_eq_true hab) (of_decide_eq_true hbc)]

theorem strLe_total (a b : String) : strLe a b ∨ strLe b a := lexLe_total a.data b.data

theorem strLe_trans {a b c : String} : strLe a b → strLe b c → strLe a c :=
  lexLe_trans a.data b.data c.data

/-! ### Claim theorems -/

/-- C1 (code bug): the yearly incidence total does not always propagate a
missing value. Two rows for the same region where the 2019 cell is missing
in the first row and `100` in the second produce a 2019 total of `100` (the
JS `bucket.incidence_2019 += v` coerces the null accumulator to 0), while
the reversed row order produces null: the group total is order-dependent,
and a missing value followed by a present one is silently treated as zero,
contradicting the claim that the missing value propagates to the group
total regardless of the order in which the rows are consumed. -/
theorem claim_C1 :
    ((cancerAgg
        [{ stateUT := "Goa", y2019 := none, y2020 := some 10, y2021 := some 10, y2022 := some 10 },
         { stateUT := "Goa", y2019 := some 100, y2020 := some 10, y2021 := some 10, y2022 := some 10 }]).map
        (fun b => (b.state, b.incidence_2019)) = [("Goa", some 100)])
    ∧ ((cancerAgg
        [{ stateUT := "Goa", y2019 := some 100, y2020 := some 10, y2021 := some 10, y2022 := some 10 },
         { stateUT := "Goa", y2019 := none, y2020 := some 10, y2021 := some 10, y2022 := some 10 }]).map
        (fun b => (b.state, b.incidence_2019)) = [("Goa", none)]) := by
  have hjs : jsTrim "Goa" = "Goa" := by decide
  have hn : normRegion "Goa" = "Goa" := by decide
  have hp : lookupStr STATE_POPULATION_2021 "Goa" = some 1586250 := by decide
  constructor
  · simp +decide [cancerAgg, addCancerRow, insertCancerRow, applyCancerRow, freshCancerBucket,
      bumpYear, hjs, hn, hp]
  · simp +decide [cancerAgg, addCancerRow, insertCancerRow, applyCancerRow, freshCancerBucket,
      bumpYear, hjs, hn, hp]

/-- C4: the diet classifier applies the case-insensitive substring rules in
fixed priority order — contains "non" gives non-vegetarian, else contains
"egg" gives non-vegetarian, else contains "veg" gives vegetarian, else
unknown — on every input string, and in particular "non-vegetarian"
classifies as non-vegetarian, "egg" as non-vegetarian, "vegetarian" as
vegetarian, and a null diet as unknown. -/
theorem claim_C4 :
    (∀ s : String,
      classifyDiet (some s) =
        (if jsIncludes (jsToLower s) "non" = true then some Diet.nonVegetarian
         else if jsIncludes (jsToLower s) "egg" = true then some Diet.nonVegetarian
         else if jsIncludes (jsToLower s) "veg" = true then some Diet.vegetarian
         else none))
    ∧ classifyDiet (some "non-vegetarian") = some Diet.nonVegetarian
    ∧ classifyDiet (some "egg") = some Diet.nonVegetarian
    ∧ classifyDiet (some "vegetarian") = some Diet.vegetarian
    ∧ classifyDiet none = none := by
  refine ⟨?_, by decide, by decide, by decide, rfl⟩
  intro s
  by_cases h : s = ""
  · subst h; decide
  · simp [classifyDiet, h]

/-- Helper: the token-level sweetness check, with the multi-word guard of
part_000 line 257 unfolded into a conjunction. -/
theorem if_sw (c b : Bool) : ((if c = true then false else b) = true) ↔ (c = false ∧ b = true) := by
  cases c <;> simp

/-- Helper: an if-true-else cascade over four boolean tests is their
disjunction. -/
theorem if_chain (a b c d : Bool) :
    (if a = true then true else if b = true then true
     else if c = true then true else if d = true then true else false) = (a || b || c || d) := by
  cases a <;> cases b <;> cases c <;> cases d <;> rfl

/-- C9: the sweetness detector returns true exactly when the lowercased
course mentions "dessert" or "sweet", or the lowercased dish name contains a
sweet-dish-name keyword, or the lowercased raw ingredient text contains any
sweet-ingredient keyword (multi-word ones included), or some ingredient
token contains a single-word (no-space) sweet-ingredient keyword —
multi-word keywords being excluded from the token-level check. -/
theorem claim_C9 :
    ∀ (name : String) (course : Option String) (tokens : List String) (raw : String),
      detectSweetness name course tokens raw = true ↔
        (jsIncludes (match course with | some c => jsToLower c | none => "") "dessert" = true
         ∨ jsIncludes (match course with | some c => jsToLower c | none => "") "sweet" = true
         ∨ (∃ kw ∈ SWEET_NAME_KEYWORDS, jsIncludes (jsToLower name) kw = true)
         ∨ (∃ kw ∈ SWEET_INGREDIENT_KEYWORDS, jsIncludes (jsToLower raw) kw = true)
         ∨ (∃ t ∈ tokens, ∃ kw ∈ SWEET_INGREDIENT_KEYWORDS,
              jsIncludes kw " " = false ∧ jsIncludes t kw = true)) := by
  intro name course tokens raw
  simp only [detectSweetness]
  rw [if_chain]
  simp only [Bool.or_eq_true, List.any_eq_true, if_sw, or_assoc]

/-- Helper: `addObservation`'s bucket update never changes the bucket's
state key. -/
theorem applyObs_state (d : Details) (b : Bucket) : (applyObs d b).state = b.state := by
  cases hp : d.prep <;> cases hc : d.cook <;>
    simp [applyObs, hp, hc, apply_ite Bucket.state]

/-- Helper: `addObservation`'s bucket update increments the dish count by
exactly one. -/
theorem applyObs_dish_count (d : Details) (b : Bucket) :
    (applyObs d b).dish_count = b.dish_count + 1 := by
  cases hp : d.prep <;> cases hc : d.cook <;>
    simp [applyObs, hp, hc, apply_ite Bucket.dish_count]

/-- C5: two raw spellings that normalize to the same canonical key are
aggregated into a single bucket — one observation under each spelling
yields exactly one finalized RegionSummary, keyed by the canonical name,
with dish_count 2, never two separate summaries. -/
theorem claim_C5 :
    ∀ (r1 r2 : String) (d1 d2 : Details),
      normRegion r1 = normRegion r2 →
      normRegion r1 ≠ "" →
      normRegion r1 ≠ "-1" →
      ∃ row : CuisineRow,
        cuisineRows (addObservation r2 d2 (addObservation r1 d1 [])) = [row] ∧
        row.state = normRegion r1 ∧ row.dish_count = 2 := by
  intro r1 r2 d1 d2 heq hne hs
  have hguard : ¬(normRegion r1 = "" ∨ normRegion r1 = "-1") := by tauto
  have hguard2 : ¬(normRegion r2 = "" ∨ normRegion r2 = "-1") := by rw [← heq]; exact hguard
  have step1 : addObservation r1 d1 [] = [applyObs d1 (freshBucket (normRegion r1))] := by
    simp only [addObservation, if_neg hguard, insertObs]
  have hstate : (applyObs d1 (freshBucket (normRegion r1))).state = normRegion r1 := by
    rw [applyObs_state]; rfl
  have step2 : addObservation r2 d2 [applyObs d1 (freshBucket (normRegion r1))] =
      [applyObs d2 (applyObs d1 (freshBucket (normRegion r1)))] := by
    simp only [addObservation, if_neg hguard2, insertObs]
    rw [if_pos]
    rw [hstate, heq]
  refine ⟨finalizeBucket (applyObs d2 (applyObs d1 (freshBucket (normRegion r1)))), ?_, ?_, ?_⟩
  · rw [step1, step2]
    simp [cuisineRows, List.insertionSort]
  · show (finalizeBucket _).state = _
    rw [finalizeBucket]
    rw [applyObs_state, hstate]
  · show (finalizeBucket _).dish_count = 2
    rw [finalizeBucket]
    rw [applyObs_dish_count, applyObs_dish_count]
    rfl

/-- Witness for C5 at the alias pair "Jammu & Kashmir" and
" Jammu and Kashmir " (the latter also exercising the trim), both of which
the alias table maps to "Jammu and Kashmir". -/
theorem claim_C5_witness :
    ∃ row : CuisineRow,
      cuisineRows (addObservation " Jammu and Kashmir "
          { diet := none, sweet := false, prep := none, cook := none, tokens := [] }
          (addObservation "Jammu & Kashmir"
            { diet := some .vegetarian, sweet := true, prep := some 5, cook := none,
              tokens := ["dal"] } [])) = [row] ∧
      row.state = normRegion "Jammu & Kashmir" ∧ row.dish_count = 2 :=
  claim_C5 "Jammu & Kashmir" " Jammu and Kashmir " _ _ (by decide) (by decide) (by decide)

/-- Helper: the vegetarian counter grows by at most one per observation. -/
theorem applyObs_veg (d : Details) (b : Bucket) : (applyObs d b).veg ≤ b.veg + 1 := by
  cases hp : d.prep <;> cases hc : d.cook <;>
    simp [applyObs, hp, hc, apply_ite Bucket.veg] <;> split_ifs <;> omega

/-- Helper: the sweet counter grows by at most one per observation. -/
theorem applyObs_sweet (d : Details) (b : Bucket) : (applyObs d b).sweet ≤ b.sweet + 1 := by
  cases hp : d.prep <;> cases hc : d.cook <;>
    simp [applyObs, hp, hc, apply_ite Bucket.sweet] <;> split_ifs <;> omega

/-- Helper: the lentil counter grows by at most one per observation. -/
theorem applyObs_lentil (d : Details) (b : Bucket) :
    (applyObs d b).lentil_like ≤ b.lentil_like + 1 := by
  cases hp : d.prep <;> cases hc : d.cook <;>
    simp [applyObs, hp, hc, apply_ite Bucket.lentil_like] <;> split_ifs <;> omega

/-- Helper: the red-meat counter grows by at most one per observation. -/
theorem applyObs_red_meat (d : Details) (b : Bucket) :
    (applyObs d b).red_meat_like ≤ b.red_meat_like + 1 := by
  cases hp : d.prep <;> cases hc : d.cook <;>
    simp [applyObs, hp, hc, apply_ite Bucket.red_meat_like] <;> split_ifs <;> omega

/-- Helper: the poultry counter grows by at most one per observation. -/
theorem applyObs_poultry (d : Details) (b : Bucket) :
    (applyObs d b).poultry ≤ b.poultry + 1 := by
  cases hp : d.prep <;> cases hc : d.cook <;>
    simp [applyObs, hp, hc, apply_ite Bucket.poultry] <;> split_ifs <;> omega

/-- Helper: the fish counter grows by at most one per observation. -/
theorem applyObs_fish (d : Details) (b : Bucket) : (applyObs d b).fish ≤ b.fish + 1 := by
  cases hp : d.prep <;> cases hc : d.cook <;>
    simp [applyObs, hp, hc, apply_ite Bucket.fish] <;> split_ifs <;> omega

/-- Helper: the turmeric counter grows by at most one per observation. -/
theorem applyObs_turmeric (d : Details) (b : Bucket) :
    (applyObs d b).turmeric ≤ b.turmeric + 1 := by
  cases hp : d.prep <;> cases hc : d.cook <;>
    simp [applyObs, hp, hc, apply_ite Bucket.turmeric] <;> split_ifs <;> omega

/-- Helper: the bucket update preserves the aggregator invariant (and
establishes it on a bucket whose counters are all bounded by its dish
count, in particular on a fresh bucket). -/
theorem applyObs_inv (d : Details) (b : Bucket)
    (h : b.veg ≤ b.dish_count ∧ b.sweet ≤ b.dish_count ∧
      b.lentil_like ≤ b.dish_count ∧ b.red_meat_like ≤ b.dish_count ∧
      b.poultry ≤ b.dish_count ∧ b.fish ≤ b.dish_count ∧ b.turmeric ≤ b.dish_count) :
    BucketInv (applyObs d b) := by
  obtain ⟨h1, h2, h3, h4, h5, h6, h7⟩ := h
  have hd := applyObs_dish_count d b
  refine ⟨by omega, ?_, ?_, ?_, ?_, ?_, ?_, ?_⟩
  · have := applyObs_veg d b; omega
  · have := applyObs_sweet d b; omega
  · have := applyObs_lentil d b; omega
  · have := applyObs_red_meat d b; omega
  · have := applyObs_poultry d b; omega
  · have := applyObs_fish d b; omega
  · have := applyObs_turmeric d b; omega

/-- Helper: `insertObs` preserves the aggregator invariant on every bucket. -/
theorem insertObs_inv (state : String) (d : Details) :
    ∀ (acc : List Bucket), (∀ b ∈ acc, BucketInv b) →
      ∀ b ∈ insertObs state d acc, BucketInv b := by
  intro acc
  induction acc with
  | nil =>
    intro _ b hb
    simp only [insertObs, List.mem_singleton] at hb
    subst hb
    exact applyObs_inv d _ (by simp [freshBucket])
  | cons a as ih =>
    intro hall b hb
    simp only [insertObs] at hb
    by_cases hs : a.state = state
    · rw [if_pos hs] at hb
      rcases List.mem_cons.mp hb with h | h
      · subst h
        have ha := hall a (List.mem_cons_self a as)
        exact applyObs_inv d a ⟨ha.2.1, ha.2.2.1, ha.2.2.2.1, ha.2.2.2.2.1,
          ha.2.2.2.2.2.1, ha.2.2.2.2.2.2.1, ha.2.2.2.2.2.2.2⟩
      · exact hall b (List.mem_cons_of_mem a h)
    · rw [if_neg hs] at hb
      rcases List.mem_cons.mp hb with h | h
      · subst h
        exact hall b (List.mem_cons_self b as)
      · exact ih (fun x hx => hall x (List.mem_cons_of_mem a hx)) b h

/-- Helper: every bucket produced by the aggregation loop satisfies the
invariant. -/
theorem aggregate_inv (obss : List (String × Details)) :
    ∀ b ∈ aggregate obss, BucketInv b := by
  suffices h : ∀ (obss : List (String × Details)) (acc : List Bucket),
      (∀ b ∈ acc, BucketInv b) →
      ∀ b ∈ obss.foldl (fun acc o => addObservation o.1 o.2 acc) acc, BucketInv b by
    exact h obss [] (by simp)
  intro obss
  induction obss with
  | nil => intro acc hacc b hb; exact hacc b hb
  | cons o os ih =>
    intro acc hacc b hb
    simp only [List.foldl_cons] at hb
    refine ih (addObservation o.1 o.2 acc) ?_ b hb
    intro x hx
    unfold addObservation at hx
    by_cases hg : normRegion o.1 = "" ∨ normRegion o.1 = "-1"
    · rw [if_pos hg] at hx; exact hacc x hx
    · rw [if_neg hg] at hx; exact insertObs_inv _ _ acc hacc x hx

/-- Helper: a count bounded by a positive denominator gives a percentage in
the unit interval. -/
theorem pct_bounds (c d : ℕ) (hd : 1 ≤ d) (hc : c ≤ d) :
    0 ≤ (c : ℚ) / d ∧ (c : ℚ) / d ≤ 1 := by
  have hd0 : (0 : ℚ) < d := by exact_mod_cast hd
  constructor
  · positivity
  · rw [div_le_one hd0]; exact_mod_cast hc

/-- C10: every finalized cuisine RegionSummary has dish_count at least 1
(a bucket exists only after an observation was added to it), and each pct
field is non-null and lies in the closed unit interval — the
null-when-dish_count-is-zero branch of finalize is unreachable from the
aggregation interface. -/
theorem claim_C10 :
    ∀ (obss : List (String × Details)), ∀ row ∈ cuisineRows (aggregate obss),
      1 ≤ row.dish_count ∧
      (∃ q, row.pct_veg = some q ∧ 0 ≤ q ∧ q ≤ 1) ∧
      (∃ q, row.pct_sweet = some q ∧ 0 ≤ q ∧ q ≤ 1) ∧
      (∃ q, row.pct_lentil_like = some q ∧ 0 ≤ q ∧ q ≤ 1) ∧
      (∃ q, row.pct_red_meat_like = some q ∧ 0 ≤ q ∧ q ≤ 1) ∧
      (∃ q, row.pct_poultry = some q ∧ 0 ≤ q ∧ q ≤ 1) ∧
      (∃ q, row.pct_fish = some q ∧ 0 ≤ q ∧ q ≤ 1) ∧
      (∃ q, row.pct_turmeric = some q ∧ 0 ≤ q ∧ q ≤ 1) := by
  intro obss row hrow
  rw [cuisineRows, List.mem_insertionSort] at hrow
  obtain ⟨b, hbmem, hbeq⟩ := List.mem_map.mp hrow
  obtain ⟨h1, h2, h3, h4, h5, h6, h7, h8⟩ := aggregate_inv obss b hbmem
  subst hbeq
  have hne : ¬(b.dish_count = 0) := by omega
  refine ⟨by simpa [finalizeBucket] using h1, ?_, ?_, ?_, ?_, ?_, ?_, ?_⟩
  · exact ⟨_, by simp [finalizeBucket, hne], (pct_bounds _ _ h1 h2).1, (pct_bounds _ _ h1 h2).2⟩
  · exact ⟨_, by simp [finalizeBucket, hne], (pct_bounds _ _ h1 h3).1, (pct_bounds _ _ h1 h3).2⟩
  · exact ⟨_, by simp [finalizeBucket, hne], (pct_bounds _ _ h1 h4).1, (pct_bounds _ _ h1 h4).2⟩
  · exact ⟨_, by simp [finalizeBucket, hne], (pct_bounds _ _ h1 h5).1, (pct_bounds _ _ h1 h5).2⟩
  · exact ⟨_, by simp [finalizeBucket, hne], (pct_bounds _ _ h1 h6).1, (pct_bounds _ _ h1 h6).2⟩
  · exact ⟨_, by simp [finalizeBucket, hne], (pct_bounds _ _ h1 h7).1, (pct_bounds _ _ h1 h7).2⟩
  · exact ⟨_, by simp [finalizeBucket, hne], (pct_bounds _ _ h1 h8).1, (pct_bounds _ _ h1 h8).2⟩

/-- Witness for C10 at a single minimal observation for "Goa". -/
theorem claim_C10_witness :
    1 ≤ (finalizeBucket (applyObs
        { diet := none, sweet := false, prep := none, cook := none, tokens := [] }
        (freshBucket "Goa"))).dish_count ∧
    (∃ q, (finalizeBucket (applyObs
        { diet := none, sweet := false, prep := none, cook := none, tokens := [] }
        (freshBucket "Goa"))).pct_veg = some q ∧ 0 ≤ q ∧ q ≤ 1) ∧
    (∃ q, (finalizeBucket (applyObs
        { diet := none, sweet := false, prep := none, cook := none, tokens := [] }
        (freshBucket "Goa"))).pct_sweet = some q ∧ 0 ≤ q ∧ q ≤ 1) ∧
    (∃ q, (finalizeBucket (applyObs
        { diet := none, sweet := false, prep := none, cook := none, tokens := [] }
        (freshBucket "Goa"))).pct_lentil_like = some q ∧ 0 ≤ q ∧ q ≤ 1) ∧
    (∃ q, (finalizeBucket (applyObs
        { diet := none, sweet := false, prep := none, cook := none, tokens := [] }
        (freshBucket "Goa"))).pct_red_meat_like = some q ∧ 0 ≤ q ∧ q ≤ 1) ∧
    (∃ q, (finalizeBucket (applyObs
        { diet := none, sweet := false, prep := none, cook := none, tokens := [] }
        (freshBucket "Goa"))).pct_poultry = some q ∧ 0 ≤ q ∧ q ≤ 1) ∧
    (∃ q, (finalizeBucket (applyObs
        { diet := none, sweet := false, prep := none, cook := none, tokens := [] }
        (freshBucket "Goa"))).pct_fish = some q ∧ 0 ≤ q ∧ q ≤ 1) ∧
    (∃ q, (finalizeBucket (applyObs
        { diet := none, sweet := false, prep := none, cook := none, tokens := [] }
        (freshBucket "Goa"))).pct_turmeric = some q ∧ 0 ≤ q ∧ q ≤ 1) := by
  have hn : normRegion "Goa" = "Goa" := by decide
  have hagg : aggregate [("Goa",
      { diet := none, sweet := false, prep := none, cook := none, tokens := [] })] =
      [applyObs { diet := none, sweet := false, prep := none, cook := none, tokens := [] }
        (freshBucket "Goa")] := by
    simp only [aggregate, List.foldl, addObservation, hn]
    rw [if_neg (by decide)]
    simp [insertObs]
  have hmem : finalizeBucket (applyObs
      { diet := none, sweet := false, prep := none, cook := none, tokens := [] }
      (freshBucket "Goa")) ∈ cuisineRows (aggregate [("Goa",
      { diet := none, sweet := false, prep := none, cook := none, tokens := [] })]) := by
    rw [cuisineRows, hagg]
    simp [List.insertionSort]
  exact claim_C10 _ _ hmem

/-- C3 counterexample: the claim says cagr returns null whenever years is
not strictly positive and null for non-finite inputs, but the source never
tests `isFinite(years)`: with `years = NaN` (which is not strictly positive
under JS comparison) the guard is passed and the result is the number NaN,
not null, and with `years = +Infinity` (a non-finite input) the result is
the number 0, not null. -/
theorem claim_C3_counterexample :
    cagr (.fin 100) (.fin 200) .nan = some .nan ∧
    cagr (.fin 100) (.fin 200) .posInf = some (.fin 0) := by
  constructor
  · norm_num [cagr, JSNum.leZero, JSNum.isFinite, jsDiv, jsPow, jsSub]
  · norm_num [cagr, JSNum.leZero, JSNum.isFinite, jsDiv, jsPow, jsSub]

/-- C3 as amended: cagr returns null when v0 or v1 is non-finite, and for
finite inputs exactly when `v0 <= 0` or `years <= 0`; the finiteness of
`years` is not checked, so `years = NaN` escapes the guard and yields NaN
and `years = +Infinity` yields `(v1/v0)^0 - 1 = 0`; for finite positive
v0, v1 and years it returns `(v1/v0)^(1/years) - 1`, and in particular
`cagr 100 133.1 3 = 0.1` exactly in ideal arithmetic. -/
theorem claim_C3 :
    (∀ v0 v1 years : JSNum, (v0.isFinite = false ∨ v1.isFinite = false) →
        cagr v0 v1 years = none)
    ∧ (∀ a b y : ℝ, cagr (.fin a) (.fin b) (.fin y) = none ↔ a ≤ 0 ∨ y ≤ 0)
    ∧ (∀ a b y : ℝ, 0 < a → 0 < b → 0 < y →
        cagr (.fin a) (.fin b) (.fin y) = some (.fin ((b / a) ^ (1 / y) - 1)))
    ∧ cagr (.fin 100) (.fin 133.1) (.fin 3) = some (.fin 0.1)
    ∧ (∀ a b : ℝ, 0 < a → cagr (.fin a) (.fin b) .posInf = some (.fin 0))
    ∧ (∀ a b : ℝ, 0 < a → cagr (.fin a) (.fin b) .nan = some .nan) := by
  have hmain : ∀ a b y : ℝ, 0 < a → 0 < b → 0 < y →
      cagr (.fin a) (.fin b) (.fin y) = some (.fin ((b / a) ^ (1 / y) - 1)) := by
    intro a b y ha hb hy
    have ha' : ¬(a ≤ 0) := not_le.mpr ha
    have hy' : ¬(y ≤ 0) := not_le.mpr hy
    have ha0 : ¬(a = 0) := ne_of_gt ha
    have hy0 : ¬(y = 0) := ne_of_gt hy
    have hba : 0 < b / a := div_pos hb ha
    have hba0 : ¬(b / a = 0) := ne_of_gt hba
    have h1y : ¬((1 : ℝ) / y = 0) := ne_of_gt (by positivity)
    simp [cagr, JSNum.leZero, JSNum.isFinite, jsDiv, jsPow, jsSub,
      ha', hy', ha0, hy0, hba, hba0, h1y]
  refine ⟨?_, ?_, hmain, ?_, ?_, ?_⟩
  · intro v0 v1 years h
    cases v0 <;> cases v1 <;> simp_all [cagr, JSNum.isFinite]
  · intro a b y
    by_cases ha : a ≤ 0
    · simp [cagr, JSNum.leZero, JSNum.isFinite, ha]
    · by_cases hy : y ≤ 0
      · simp [cagr, JSNum.leZero, JSNum.isFinite, hy]
      · simp [cagr, JSNum.leZero, JSNum.isFinite, ha, hy]
  · rw [hmain 100 133.1 3 (by norm_num) (by norm_num) (by norm_num)]
    have h1 : (133.1 : ℝ) / 100 = (1.1 : ℝ) ^ (3 : ℕ) := by norm_num
    have h2 : (1 : ℝ) / 3 = ((3 : ℕ) : ℝ)⁻¹ := by norm_num
    rw [h1, h2, Real.pow_rpow_inv_natCast (by norm_num) (by norm_num)]
    norm_num
  · intro a b ha
    have ha' : ¬(a ≤ 0) := not_le.mpr ha
    have ha0 : ¬(a = 0) := ne_of_gt ha
    simp [cagr, JSNum.leZero, JSNum.isFinite, jsDiv, jsPow, jsSub, ha', ha0]
  · intro a b ha
    have ha' : ¬(a ≤ 0) := not_le.mpr ha
    have ha0 : ¬(a = 0) := ne_of_gt ha
    simp [cagr, JSNum.leZero, JSNum.isFinite, jsDiv, jsPow, jsSub, ha', ha0]

/-- Witness for the amended C3 at concrete positive inputs and at the two
guard-escaping years values. -/
theorem claim_C3_witness :
    cagr (.fin 2) (.fin 8) (.fin 4) = some (.fin (((8 : ℝ) / 2) ^ ((1 : ℝ) / 4) - 1)) ∧
    cagr (.fin 5) (.fin 7) .posInf = some (.fin 0) ∧
    cagr (.fin 5) (.fin 7) .nan = some .nan :=
  ⟨claim_C3.2.2.1 2 8 4 (by norm_num) (by norm_num) (by norm_num),
   claim_C3.2.2.2.2.1 5 7 (by norm_num),
   claim_C3.2.2.2.2.2 5 7 (by norm_num)⟩

/-- Helper: the derived-metric pass keeps the bucket's state key. -/
theorem enrichBucket_state (b : CancerBucket) : (enrichBucket b).state = b.state := rfl

/-- Helper: the derived-metric pass keeps the bucket's population. -/
theorem enrichBucket_population (b : CancerBucket) :
    (enrichBucket b).population = b.population := rfl

/-- Helper: a state is in `missingPopulation` exactly when some aggregated
bucket carries that state with no population figure. -/
theorem missingPopulation_char (rows : List CancerRowIn) (s : String) :
    s ∈ missingPopulation rows ↔
      ∃ b ∈ cancerAgg rows, b.state = s ∧ b.population = none := by
  simp only [missingPopulation, cancerRowsOf, List.mem_map, List.mem_filter,
    List.mem_insertionSort, Option.isNone_iff_eq_none]
  constructor
  · rintro ⟨r, ⟨⟨b, hb, rfl⟩, hpop⟩, rfl⟩
    exact ⟨b, hb, rfl, hpop⟩
  · rintro ⟨b, hb, rfl, hpop⟩
    exact ⟨enrichBucket b, ⟨⟨b, hb, rfl⟩, hpop⟩, rfl⟩

/-- C7: whenever some region in the aggregated incidence output has no known
population figure, the pipeline halts with an error whose message names
exactly the affected regions (the missing-population list characterized by
membership), and it never reaches the ok outcome that models writing the
output document — the throw at part_000 line 348 precedes the write at line
350. -/
theorem claim_C7 :
    ∀ rows : List CancerRowIn,
      (∃ b ∈ cancerAgg rows, b.population = none) →
      missingPopulation rows ≠ [] ∧
      (∀ s, s ∈ missingPopulation rows ↔
        ∃ b ∈ cancerAgg rows, b.state = s ∧ b.population = none) ∧
      cancerPhase rows =
        .error ("Missing population for states: " ++ joinComma (missingPopulation rows)) ∧
      (∀ out, cancerPhase rows ≠ .ok out) := by
  intro rows hex
  obtain ⟨b, hb, hpop⟩ := hex
  have hmem : b.state ∈ missingPopulation rows :=
    (missingPopulation_char rows b.state).mpr ⟨b, hb, rfl, hpop⟩
  have hne : missingPopulation rows ≠ [] := List.ne_nil_of_mem hmem
  have hemp : (missingPopulation rows).isEmpty = false := by
    rw [List.isEmpty_eq_false]
    exact hne
  have hphase : cancerPhase rows =
      .error ("Missing population for states: " ++ joinComma (missingPopulation rows)) := by
    rw [cancerPhase]
    simp [hemp]
  exact ⟨hne, fun s => missingPopulation_char rows s, hphase, by simp [hphase]⟩

/-- Witness for C7 at a single row whose region "Atlantis" has no entry in
the population table. -/
theorem claim_C7_witness :
    missingPopulation [⟨"Atlantis", some 5, none, some 7, some 8⟩] ≠ [] ∧
    (∀ s, s ∈ missingPopulation [⟨"Atlantis", some 5, none, some 7, some 8⟩] ↔
      ∃ b ∈ cancerAgg [⟨"Atlantis", some 5, none, some 7, some 8⟩],
        b.state = s ∧ b.population = none) ∧
    cancerPhase [⟨"Atlantis", some 5, none, some 7, some 8⟩] =
      .error ("Missing population for states: " ++
        joinComma (missingPopulation [⟨"Atlantis", some 5, none, some 7, some 8⟩])) ∧
    (∀ out, cancerPhase [⟨"Atlantis", some 5, none, some 7, some 8⟩] ≠ .ok out) :=
  claim_C7 _ (by decide)

/-- Helper: membership in the set-dedup worker. -/
theorem firstDedupAux_mem : ∀ (l seen : List String) (x : String),
    x ∈ firstDedupAux seen l ↔ x ∈ l ∧ x ∉ seen := by
  intro l
  induction l with
  | nil => intro seen x; simp [firstDedupAux]
  | cons t ts ih =>
    intro seen x
    by_cases ht : t ∈ seen
    · simp only [firstDedupAux, if_pos ht, ih]
      constructor
      · rintro ⟨hx, hs⟩; exact ⟨List.mem_cons_of_mem t hx, hs⟩
      · rintro ⟨hx, hs⟩
        rcases List.mem_cons.mp hx with rfl | hx
        · exact absurd ht hs
        · exact ⟨hx, hs⟩
    · simp only [firstDedupAux, if_neg ht, List.mem_cons, ih, List.mem_cons]
      by_cases hxt : x = t
      · subst hxt; simp [ht]
      · simp [hxt]

/-- Helper: the set-dedup worker produces no duplicates. -/
theorem firstDedupAux_nodup : ∀ (l seen : List String), (firstDedupAux seen l).Nodup := by
  intro l
  induction l with
  | nil => intro seen; simp [firstDedupAux]
  | cons t ts ih =>
    intro seen
    by_cases ht : t ∈ seen
    · simp only [firstDedupAux, if_pos ht]; exact ih seen
    · simp only [firstDedupAux, if_neg ht]
      refine List.Nodup.cons ?_ (ih (t :: seen))
      intro hmem
      have := (firstDedupAux_mem ts (t :: seen) t).mp hmem
      exact this.2 (List.mem_cons_self t seen)

/-- Helper: JS set semantics — dedup keeps exactly the original members. -/
theorem firstDedup_mem (l : List String) (x : String) : x ∈ firstDedup l ↔ x ∈ l := by
  rw [firstDedup, firstDedupAux_mem]
  simp

/-- Helper: JS set semantics — dedup yields distinct members. -/
theorem firstDedup_nodup (l : List String) : (firstDedup l).Nodup :=
  firstDedupAux_nodup l []

/-- C6: for every region present in either summary set, the join produces
exactly one JoinedRecord for that region (a region present in only one
source is never dropped), with the cancer and cuisine fields each equal to
the matching summary lookup and null exactly when the region is absent from
that side, and the joined set is sorted ascending by region key. -/
theorem claim_C6 :
    ∀ (cb : List CancerOut) (cr : List CuisineRow),
      (∀ s, s ∈ cb.map CancerOut.state ∨ s ∈ cr.map CuisineRow.state →
        ((joinRows cb cr).countP (fun row => row.state == s) = 1 ∧
         ∀ row ∈ joinRows cb cr, row.state = s →
           row.cancer = cb.find? (fun b => b.state == s) ∧
           (row.cancer = none ↔ s ∉ cb.map CancerOut.state) ∧
           row.cuisine = cr.find? (fun r => r.state == s) ∧
           (row.cuisine = none ↔ s ∉ cr.map CuisineRow.state)))
      ∧ (joinRows cb cr).Pairwise (fun a b => strLe a.state b.state) := by
  intro cb cr
  haveI : IsTotal String strLe := ⟨strLe_total⟩
  haveI : IsTrans String strLe := ⟨fun a b c hab hbc => strLe_trans hab hbc⟩
  refine ⟨?_, ?_⟩
  · intro s hs
    have hmem : s ∈ List.insertionSort strLe
        (firstDedup (cb.map CancerOut.state ++ cr.map CuisineRow.state)) := by
      rw [List.mem_insertionSort, firstDedup_mem, List.mem_append]
      exact hs
    have hnd : (List.insertionSort strLe
        (firstDedup (cb.map CancerOut.state ++ cr.map CuisineRow.state))).Nodup :=
      (List.perm_insertionSort strLe _).nodup_iff.mpr (firstDedup_nodup _)
    refine ⟨?_, ?_⟩
    · simp only [joinRows]
      rw [List.countP_map]
      exact List.count_eq_one_of_mem hnd hmem
    · intro row hrow hstate
      simp only [joinRows, List.mem_map] at hrow
      obtain ⟨st, hst, rfl⟩ := hrow
      have : st = s := hstate
      subst this
      refine ⟨rfl, ?_, rfl, ?_⟩
      · rw [List.find?_eq_none]
        simp [List.mem_map]
      · rw [List.find?_eq_none]
        simp [List.mem_map]
  · simp only [joinRows]
    exact (List.sorted_insertionSort strLe _).map _ (fun a b h => h)

/-- Witness for C6 at a one-row cancer set for "Assam" and a one-row cuisine
set for "Bihar", instantiated at the cuisine-only region "Bihar". -/
theorem claim_C6_witness :
    ((joinRows [⟨"Assam", none, none, none, none, none, none, none, none, none, none⟩]
        [⟨"Bihar", 1, none, none, none, none, none, none, none, none, none, []⟩]).countP
        (fun row => row.state == "Bihar") = 1 ∧
     ∀ row ∈ joinRows [⟨"Assam", none, none, none, none, none, none, none, none, none, none⟩]
        [⟨"Bihar", 1, none, none, none, none, none, none, none, none, none, []⟩],
       row.state = "Bihar" →
         row.cancer = [(⟨"Assam", none, none, none, none, none, none, none, none, none,
             none⟩ : CancerOut)].find? (fun b => b.state == "Bihar") ∧
         (row.cancer = none ↔ "Bihar" ∉
           [(⟨"Assam", none, none, none, none, none, none, none, none, none,
             none⟩ : CancerOut)].map CancerOut.state) ∧
         row.cuisine = [(⟨"Bihar", 1, none, none, none, none, none, none, none, none, none,
             []⟩ : CuisineRow)].find? (fun r => r.state == "Bihar") ∧
         (row.cuisine = none ↔ "Bihar" ∉
           [(⟨"Bihar", 1, none, none, none, none, none, none, none, none, none,
             []⟩ : CuisineRow)].map CuisineRow.state)) :=
  (claim_C6 [⟨"Assam", none, none, none, none, none, none, none, none, none, none⟩]
      [⟨"Bihar", 1, none, none, none, none, none, none, none, none, none, []⟩]).1
    "Bihar" (Or.inr (by decide))

/-- Helper: the regression fit is null exactly when no sample has both
coordinates finite. -/
theorem fit_none_iff :
    ∀ data : List ScatterPoint,
      fit data = none ↔ ∀ p ∈ data, ¬(p.x.isFinite = true ∧ p.y.isFinite = true) := by
  intro data
  by_cases hc : (validPoints data).length = 0
  · simp only [fit, if_pos hc, true_iff]
    rw [List.length_eq_zero] at hc
    intro p hp hfin
    have : p ∈ validPoints data := List.mem_filter.mpr ⟨hp, by simp [hfin.1, hfin.2]⟩
    rw [hc] at this
    exact absurd this (List.not_mem_nil p)
  · simp only [fit, if_neg hc]
    constructor
    · intro h; exact absurd h (by simp)
    · intro hall
      exfalso
      apply hc
      rw [List.length_eq_zero, validPoints, List.filter_eq_nil_iff]
      intro p hp
      intro hb
      rw [Bool.and_eq_true] at hb
      exact hall p hp hb

/-- Helper: on an input with at least one finite sample, the fit succeeds
and its slope, intercept and r equal the population formulas of the spec
(divide by n, with the zero-variance guards). -/
theorem fit_formulas :
    ∀ data : List ScatterPoint,
      (∃ p ∈ data, p.x.isFinite = true ∧ p.y.isFinite = true) →
      ∃ m, fit data = some m ∧
        m.slope = (if specVar ((finitePairs data).map Prod.fst) = 0 then 0
          else specCov (finitePairs data) / specVar ((finitePairs data).map Prod.fst)) ∧
        m.intercept = specMean ((finitePairs data).map Prod.snd) -
          m.slope * specMean ((finitePairs data).map Prod.fst) ∧
        m.r = (if specVar ((finitePairs data).map Prod.fst) = 0 ∨
            specVar ((finitePairs data).map Prod.snd) = 0 then 0
          else specCov (finitePairs data) /
            Real.sqrt (specVar ((finitePairs data).map Prod.fst) *
              specVar ((finitePairs data).map Prod.snd))) := by
  intro data h
  obtain ⟨p, hp, hfin⟩ := h
  have hmem : p ∈ validPoints data := List.mem_filter.mpr ⟨hp, by simp [hfin.1, hfin.2]⟩
  have hne : ¬((validPoints data).length = 0) := by
    intro h0
    rw [List.length_eq_zero] at h0
    rw [h0] at hmem
    exact absurd hmem (List.not_mem_nil p)
  have hfst : (finitePairs data).map Prod.fst = (validPoints data).map (fun d => d.x.val) := by
    simp [finitePairs, List.map_map, Function.comp_def]
  have hsnd : (finitePairs data).map Prod.snd = (validPoints data).map (fun d => d.y.val) := by
    simp [finitePairs, List.map_map, Function.comp_def]
  have hsm : ∀ l : List ℝ, specMean l = listMean l := fun _ => rfl
  have hmeanX : specMean ((finitePairs data).map Prod.fst) =
      listMean ((validPoints data).map fun d => d.x.val) := by
    rw [hfst]; rfl
  have hmeanY : specMean ((finitePairs data).map Prod.snd) =
      listMean ((validPoints data).map fun d => d.y.val) := by
    rw [hsnd]; rfl
  have hvarX : specVar ((finitePairs data).map Prod.fst) =
      listMean ((validPoints data).map fun d =>
        (d.x.val - listMean ((validPoints data).map fun d => d.x.val)) ^ 2) := by
    rw [specVar, hfst]
    simp only [hsm]
    simp [listMean, List.map_map, Function.comp_def]
  have hvarY : specVar ((finitePairs data).map Prod.snd) =
      listMean ((validPoints data).map fun d =>
        (d.y.val - listMean ((validPoints data).map fun d => d.y.val)) ^ 2) := by
    rw [specVar, hsnd]
    simp only [hsm]
    simp [listMean, List.map_map, Function.comp_def]
  have hcov : specCov (finitePairs data) =
      listMean ((validPoints data).map fun d =>
        (d.x.val - listMean ((validPoints data).map fun d => d.x.val)) *
        (d.y.val - listMean ((validPoints data).map fun d => d.y.val))) := by
    rw [specCov, hfst, hsnd]
    simp only [hsm]
    simp [listMean, finitePairs, List.map_map, Function.comp_def]
  simp only [fit, if_neg hne]
  refine ⟨_, rfl, ?_, ?_, ?_⟩
  · rw [hvarX, hcov]
  · rw [hmeanX, hmeanY]
  · rw [hvarX, hvarY, hcov]

/-- C2: `fit` (the regression part of `renderScatter`) returns null exactly
when the input contains no sample with both coordinates finite; on any
input with at least one finite sample it returns slope = covariance /
variance(x) (0 when variance(x) = 0), intercept = meanY - slope * meanX,
and r = covariance / sqrt(varX * varY) (0 when either variance is 0), with
means, variances and covariance computed over the finite samples dividing
by n (population, not n-1). -/
theorem claim_C2 :
    (∀ data : List ScatterPoint,
      fit data = none ↔ ∀ p ∈ data, ¬(p.x.isFinite = true ∧ p.y.isFinite = true))
    ∧ (∀ data : List ScatterPoint,
      (∃ p ∈ data, p.x.isFinite = true ∧ p.y.isFinite = true) →
      ∃ m, fit data = some m ∧
        m.slope = (if specVar ((finitePairs data).map Prod.fst) = 0 then 0
          else specCov (finitePairs data) / specVar ((finitePairs data).map Prod.fst)) ∧
        m.intercept = specMean ((finitePairs data).map Prod.snd) -
          m.slope * specMean ((finitePairs data).map Prod.fst) ∧
        m.r = (if specVar ((finitePairs data).map Prod.fst) = 0 ∨
            specVar ((finitePairs data).map Prod.snd) = 0 then 0
          else specCov (finitePairs data) /
            Real.sqrt (specVar ((finitePairs data).map Prod.fst) *
              specVar ((finitePairs data).map Prod.snd)))) :=
  ⟨fit_none_iff, fit_formulas⟩

/-- Witness for C2 at a single finite sample. -/
theorem claim_C2_witness :
    ∃ m, fit [⟨"A", .fin 1, .fin 2⟩] = some m ∧
      m.slope = (if specVar ((finitePairs [⟨"A", .fin 1, .fin 2⟩]).map Prod.fst) = 0 then 0
        else specCov (finitePairs [⟨"A", .fin 1, .fin 2⟩]) /
          specVar ((finitePairs [⟨"A", .fin 1, .fin 2⟩]).map Prod.fst)) ∧
      m.intercept = specMean ((finitePairs [⟨"A", .fin 1, .fin 2⟩]).map Prod.snd) -
        m.slope * specMean ((finitePairs [⟨"A", .fin 1, .fin 2⟩]).map Prod.fst) ∧
      m.r = (if specVar ((finitePairs [⟨"A", .fin 1, .fin 2⟩]).map Prod.fst) = 0 ∨
          specVar ((finitePairs [⟨"A", .fin 1, .fin 2⟩]).map Prod.snd) = 0 then 0
        else specCov (finitePairs [⟨"A", .fin 1, .fin 2⟩]) /
          Real.sqrt (specVar ((finitePairs [⟨"A", .fin 1, .fin 2⟩]).map Prod.fst) *
            specVar ((finitePairs [⟨"A", .fin 1, .fin 2⟩]).map Prod.snd))) :=
  claim_C2.2 [⟨"A", .fin 1, .fin 2⟩]
    ⟨⟨"A", .fin 1, .fin 2⟩, List.mem_singleton.mpr rfl, rfl, rfl⟩

/-- Helper: every paired sample the search builds has finite coordinates
(both values come from loaded JSON numbers). -/
theorem comboPoints_valid (j : List JoinedRec) (sh : StateShares)
    (cx : CuisineSel) (cy : CancerKey) :
    validPoints (comboPoints j sh cx cy) = comboPoints j sh cx cy := by
  rw [validPoints, List.filter_eq_self]
  intro q hq
  rw [comboPoints, List.mem_filterMap] at hq
  obtain ⟨entry, he, heq⟩ := hq
  cases hx : getCuisineValue sh entry.cuisine cx <;>
    cases hy : entry.cancer.bind (fun c => c.get cy) <;>
      rw [hx, hy] at heq <;> simp at heq
  rw [← heq]
  rfl

/-- Helper: the regression fit succeeds on a nonempty all-finite sample
list. -/
theorem fit_some_of_valid (pts : List ScatterPoint)
    (hval : validPoints pts = pts) (hne : pts ≠ []) : ∃ m, fit pts = some m := by
  have hlen : ¬((validPoints pts).length = 0) := by
    rw [hval, List.length_eq_zero]
    exact hne
  exact ⟨_, by rw [fit, if_neg hlen]⟩

/-- Helper: a candidate pair with at least 6 paired samples contributes its
fitted combo to the scan. -/
theorem allCombos_mem_of (j : List JoinedRec) (i : List IngredientInfo) (sh : StateShares)
    (cx : CuisineSel) (cy : CancerKey)
    (hcx : cx ∈ cuisineCandidates i) (hcy : cy ∈ cancerMetricsKeys)
    (hlen : 6 ≤ (comboPoints j sh cx cy).length) :
    ∃ m, fit (comboPoints j sh cx cy) = some m ∧
      ({ cuisine := cx, cancer := cy, r := m.r,
         sample := (comboPoints j sh cx cy).length } : ComboSuggestion) ∈ allCombos j i sh := by
  have hne : comboPoints j sh cx cy ≠ [] := by
    intro h0
    rw [h0] at hlen
    simp at hlen
  obtain ⟨m, hm⟩ := fit_some_of_valid _ (comboPoints_valid j sh cx cy) hne
  refine ⟨m, hm, ?_⟩
  rw [allCombos, List.mem_flatMap]
  refine ⟨cx, hcx, ?_⟩
  rw [List.mem_filterMap]
  refine ⟨cy, hcy, ?_⟩
  rw [if_neg (not_lt.mpr hlen)]
  simp [computeScatter, hm]

/-- Helper: every scanned combo originates from a candidate pair with at
least 6 paired samples, recording that pair's fitted r and sample size. -/
theorem allCombos_src (j : List JoinedRec) (i : List IngredientInfo) (sh : StateShares)
    (c : ComboSuggestion) (hc : c ∈ allCombos j i sh) :
    ∃ cx ∈ cuisineCandidates i, ∃ cy ∈ cancerMetricsKeys,
      c.cuisine = cx ∧ c.cancer = cy ∧ 6 ≤ (comboPoints j sh cx cy).length ∧
      c.sample = (comboPoints j sh cx cy).length ∧
      ∃ m, fit (comboPoints j sh cx cy) = some m ∧ c.r = m.r := by
  rw [allCombos, List.mem_flatMap] at hc
  obtain ⟨cx, hcx, hc⟩ := hc
  rw [List.mem_filterMap] at hc
  obtain ⟨cy, hcy, hf⟩ := hc
  by_cases hlt : (comboPoints j sh cx cy).length < 6
  · rw [if_pos hlt] at hf
    exact absurd hf (by simp)
  · rw [if_neg hlt] at hf
    cases hfit : fit (comboPoints j sh cx cy) with
    | none =>
      rw [computeScatter, hfit] at hf
      exact absurd hf (by simp)
    | some m =>
      rw [computeScatter, hfit] at hf
      simp only [Option.map_some', Option.some.injEq] at hf
      refine ⟨cx, hcx, cy, hcy, ?_, ?_, not_lt.mp hlt, ?_, m, hfit, ?_⟩ <;> rw [← hf]

/-- C8: for every candidate cuisine/cancer metric pair, the discovery
search contributes a combo exactly when at least 6 valid paired
observations exist (the fit then always succeeds); each surviving pair's
combo records the fit's |r| and the sample size; the sorted combo list is a
permutation of all surviving combos (so no surviving pair is dropped by
the sort), is ordered by descending |r|, and the published result is its
fixed-size top-18 slice. -/
theorem claim_C8 :
    ∀ (joined : List JoinedRec) (infos : List IngredientInfo) (shares : StateShares),
      (∀ cx ∈ cuisineCandidates infos, ∀ cy ∈ cancerMetricsKeys,
        ((∃ c ∈ allCombos joined infos shares, c.cuisine = cx ∧ c.cancer = cy) ↔
          6 ≤ (comboPoints joined shares cx cy).length))
      ∧ (∀ cx ∈ cuisineCandidates infos, ∀ cy ∈ cancerMetricsKeys,
          6 ≤ (comboPoints joined shares cx cy).length →
          ∃ c ∈ allCombos joined infos shares,
            c.cuisine = cx ∧ c.cancer = cy ∧
            c.sample = (comboPoints joined shares cx cy).length ∧
            ∃ m, fit (comboPoints joined shares cx cy) = some m ∧ |c.r| = |m.r|)
      ∧ (List.insertionSort comboLe (allCombos joined infos shares)).Perm
          (allCombos joined infos shares)
      ∧ (∀ c ∈ allCombos joined infos shares,
          c ∈ List.insertionSort comboLe (allCombos joined infos shares))
      ∧ (computeInterestingCombos joined infos shares).Pairwise comboLe
      ∧ computeInterestingCombos joined infos shares =
          (List.insertionSort comboLe (allCombos joined infos shares)).take 18 := by
  intro joined infos shares
  haveI : IsTotal ComboSuggestion comboLe := ⟨fun a b => le_total _ _⟩
  haveI : IsTrans ComboSuggestion comboLe := ⟨fun a b c hab hbc => le_trans hbc hab⟩
  refine ⟨?_, ?_, List.perm_insertionSort comboLe _, ?_, ?_, rfl⟩
  · intro cx hcx cy hcy
    constructor
    · rintro ⟨c, hc, hcu, hca⟩
      obtain ⟨cx0, _, cy0, _, hcu0, hca0, hlen0, _, _⟩ := allCombos_src joined infos shares c hc
      rw [hcu] at hcu0
      rw [hca] at hca0
      rw [hcu0, hca0]
      exact hlen0
    · intro hlen
      obtain ⟨m, _, hmem⟩ := allCombos_mem_of joined infos shares cx cy hcx hcy hlen
      exact ⟨_, hmem, rfl, rfl⟩
  · intro cx hcx cy hcy hlen
    obtain ⟨m, hm, hmem⟩ := allCombos_mem_of joined infos shares cx cy hcx hcy hlen
    exact ⟨_, hmem, rfl, rfl, rfl, m, hm, rfl⟩
  · intro c hc
    exact (List.mem_insertionSort comboLe).mpr hc
  · exact List.Pairwise.sublist (List.take_sublist _ _)
      (List.sorted_insertionSort comboLe _)

/-- Witness for C8 at six joined records carrying both a cuisine pct_veg
value and a cancer incidence-2019 value, with no ingredient candidates. -/
theorem claim_C8_witness :
    ((∃ c ∈ allCombos
        [⟨"S1", some ⟨some 1, none, none, none, none, none, none, none, none⟩, some ⟨"S1", 1, some 1, none, none, none, none, none, none, none, none⟩⟩,
    ⟨"S2", some ⟨some 2, none, none, none, none, none, none, none, none⟩, some ⟨"S2", 1, some 2, none, none, none, none, none, none, none, none⟩⟩,
    ⟨"S3", some ⟨some 3, none, none, none, none, none, none, none, none⟩, some ⟨"S3", 1, some 3, none, none, none, none, none, none, none, none⟩⟩,
    ⟨"S4", some ⟨some 4, none, none, none, none, none, none, none, none⟩, some ⟨"S4", 1, some 4, none, none, none, none, none, none, none, none⟩⟩,
    ⟨"S5", some ⟨some 5, none, none, none, none, none, none, none, none⟩, some ⟨"S5", 1, some 5, none, none, none, none, none, none, none, none⟩⟩,
    ⟨"S6", some ⟨some 6, none, none, none, none, none, none, none, none⟩, some ⟨"S6", 1, some 6, none, none, none, none, none, none, none, none⟩⟩] [] [],
        c.cuisine = CuisineSel.preset CuisineKey.pctVeg ∧ c.cancer = CancerKey.inc2019) ↔
      6 ≤ (comboPoints
        [⟨"S1", some ⟨some 1, none, none, none, none, none, none, none, none⟩, some ⟨"S1", 1, some 1, none, none, none, none, none, none, none, none⟩⟩,
    ⟨"S2", some ⟨some 2, none, none, none, none, none, none, none, none⟩, some ⟨"S2", 1, some 2, none, none, none, none, none, none, none, none⟩⟩,
    ⟨"S3", some ⟨some 3, none, none, none, none, none, none, none, none⟩, some ⟨"S3", 1, some 3, none, none, none, none, none, none, none, none⟩⟩,
    ⟨"S4", some ⟨some 4, none, none, none, none, none, none, none, none⟩, some ⟨"S4", 1, some 4, none, none, none, none, none, none, none, none⟩⟩,
    ⟨"S5", some ⟨some 5, none, none, none, none, none, none, none, none⟩, some ⟨"S5", 1, some 5, none, none, none, none, none, none, none, none⟩⟩,
    ⟨"S6", some ⟨some 6, none, none, none, none, none, none, none, none⟩, some ⟨"S6", 1, some 6, none, none, none, none, none, none, none, none⟩⟩] []
        (CuisineSel.preset CuisineKey.pctVeg) CancerKey.inc2019).length) ∧
    (∃ c ∈ allCombos
        [⟨"S1", some ⟨some 1, none, none, none, none, none, none, none, none⟩, some ⟨"S1", 1, some 1, none, none, none, none, none, none, none, none⟩⟩,
    ⟨"S2", some ⟨some 2, none, none, none, none, none, none, none, none⟩, some ⟨"S2", 1, some 2, none, none, none, none, none, none, none, none⟩⟩,
    ⟨"S3", some ⟨some 3, none, none, none, none, none, none, none, none⟩, some ⟨"S3", 1, some 3, none, none, none, none, none, none, none, none⟩⟩,
    ⟨"S4", some ⟨some 4, none, none, none, none, none, none, none, none⟩, some ⟨"S4", 1, some 4, none, none, none, none, none, none, none, none⟩⟩,
    ⟨"S5", some ⟨some 5, none, none, none, none, none, none, none, none⟩, some ⟨"S5", 1, some 5, none, none, none, none, none, none, none, none⟩⟩,
    ⟨"S6", some ⟨some 6, none, none, none, none, none, none, none, none⟩, some ⟨"S6", 1, some 6, none, none, none, none, none, none, none, none⟩⟩] [] [],
      c.cuisine = CuisineSel.preset CuisineKey.pctVeg ∧ c.cancer = CancerKey.inc2019 ∧
      c.sample = (comboPoints
        [⟨"S1", some ⟨some 1, none, none, none, none, none, none, none, none⟩, some ⟨"S1", 1, some 1, none, none, none, none, none, none, none, none⟩⟩,
    ⟨"S2", some ⟨some 2, none, none, none, none, none, none, none, none⟩, some ⟨"S2", 1, some 2, none, none, none, none, none, none, none, none⟩⟩,
    ⟨"S3", some ⟨some 3, none, none, none, none, none, none, none, none⟩, some ⟨"S3", 1, some 3, none, none, none, none, none, none, none, none⟩⟩,
    ⟨"S4", some ⟨some 4, none, none, none, none, none, none, none, none⟩, some ⟨"S4", 1, some 4, none, none, none, none, none, none, none, none⟩⟩,
    ⟨"S5", some ⟨some 5, none, none, none, none, none, none, none, none⟩, some ⟨"S5", 1, some 5, none, none, none, none, none, none, none, none⟩⟩,
    ⟨"S6", some ⟨some 6, none, none, none, none, none, none, none, none⟩, some ⟨"S6", 1, some 6, none, none, none, none, none, none, none, none⟩⟩] []
        (CuisineSel.preset CuisineKey.pctVeg) CancerKey.inc2019).length ∧
      ∃ m, fit (comboPoints
        [⟨"S1", some ⟨some 1, none, none, none, none, none, none, none, none⟩, some ⟨"S1", 1, some 1, none, none, none, none, none, none, none, none⟩⟩,
    ⟨"S2", some ⟨some 2, none, none, none, none, none, none, none, none⟩, some ⟨"S2", 1, some 2, none, none, none, none, none, none, none, none⟩⟩,
    ⟨"S3", some ⟨some 3, none, none, none, none, none, none, none, none⟩, some ⟨"S3", 1, some 3, none, none, none, none, none, none, none, none⟩⟩,
    ⟨"S4", some ⟨some 4, none, none, none, none, none, none, none, none⟩, some ⟨"S4", 1, some 4, none, none, none, none, none, none, none, none⟩⟩,
    ⟨"S5", some ⟨some 5, none, none, none, none, none, none, none, none⟩, some ⟨"S5", 1, some 5, none, none, none, none, none, none, none, none⟩⟩,
    ⟨"S6", some ⟨some 6, none, none, none, none, none, none, none, none⟩, some ⟨"S6", 1, some 6, none, none, none, none, none, none, none, none⟩⟩] []
        (CuisineSel.preset CuisineKey.pctVeg) CancerKey.inc2019) = some m ∧ |c.r| = |m.r|) :=
  ⟨(claim_C8
      [⟨"S1", some ⟨some 1, none, none, none, none, none, none, none, none⟩, some ⟨"S1", 1, some 1, none, none, none, none, none, none, none, none⟩⟩,
    ⟨"S2", some ⟨some 2, none, none, none, none, none, none, none, none⟩, some ⟨"S2", 1, some 2, none, none, none, none, none, none, none, none⟩⟩,
    ⟨"S3", some ⟨some 3, none, none, none, none, none, none, none, none⟩, some ⟨"S3", 1, some 3, none, none, none, none, none, none, none, none⟩⟩,
    ⟨"S4", some ⟨some 4, none, none, none, none, none, none, none, none⟩, some ⟨"S4", 1, some 4, none, none, none, none, none, none, none, none⟩⟩,
    ⟨"S5", some ⟨some 5, none, none, none, none, none, none, none, none⟩, some ⟨"S5", 1, some 5, none, none, none, none, none, none, none, none⟩⟩,
    ⟨"S6", some ⟨some 6, none, none, none, none, none, none, none, none⟩, some ⟨"S6", 1, some 6, none, none, none, none, none, none, none, none⟩⟩] [] []).1 _
      (by simp [cuisineCandidates, cuisineMetricsKeys]) _ (by decide),
   (claim_C8
      [⟨"S1", some ⟨some 1, none, none, none, none, none, none, none, none⟩, some ⟨"S1", 1, some 1, none, none, none, none, none, none, none, none⟩⟩,
    ⟨"S2", some ⟨some 2, none, none, none, none, none, none, none, none⟩, some ⟨"S2", 1, some 2, none, none, none, none, none, none, none, none⟩⟩,
    ⟨"S3", some ⟨some 3, none, none, none, none, none, none, none, none⟩, some ⟨"S3", 1, some 3, none, none, none, none, none, none, none, none⟩⟩,
    ⟨"S4", some ⟨some 4, none, none, none, none, none, none, none, none⟩, some ⟨"S4", 1, some 4, none, none, none, none, none, none, none, none⟩⟩,
    ⟨"S5", some ⟨some 5, none, none, none, none, none, none, none, none⟩, some ⟨"S5", 1, some 5, none, none, none, none, none, none, none, none⟩⟩,
    ⟨"S6", some ⟨some 6, none, none, none, none, none, none, none, none⟩, some ⟨"S6", 1, some 6, none, none, none, none, none, none, none, none⟩⟩] [] []).2.1 _
      (by simp [cuisineCandidates, cuisineMetricsKeys]) _ (by decide)
      (by norm_num [comboPoints, getCuisineValue, CuisineJson.get, CancerJson.get,
        List.filterMap])⟩
